import Mathlib

set_option autoImplicit false

/-!
Verification development for the conversational intake orchestrator of the
case-twin repository.  The TypeScript core (agenticOrchestrator.ts,
caseProfileUtils (extraction/scoring), agenticCopilot (follow-up policy and
targeted patching), caseProfileTypes (schema)) is shallowly embedded below:
nullable scalars become `Option` values, JS arrays become `List`s, the JS
emptiness test `v === null || v === undefined || v === "" || (Array.isArray(v)
&& v.length === 0)` becomes per-type `empty*` functions, and the asynchronous
extraction capability becomes an explicit `Except` oracle input.
-/

/- ─── JS-style primitives ─────────────────────────────────────────────── -/

/-- JS emptiness for a nullable string: `null`, `undefined` or `""`. -/
def emptyOStr : Option String → Bool
  | none => true
  | some s => s == ""

/-- JS truthiness `Boolean(v)` for a nullable string. -/
def truthyOStr : Option String → Bool
  | none => false
  | some s => !(s == "")

/-- JS emptiness for a nullable number: only `null`/`undefined` count. -/
def emptyOInt (v : Option Int) : Bool := v.isNone

/-- JS truthiness for a nullable number (`0` is falsy). -/
def truthyOInt : Option Int → Bool
  | none => false
  | some n => !(n == 0)

/-- The merge `pick` of agenticOrchestrator.ts at nullable-string leaves:
`pick(a, b) = isEmpty(b) ? a : b`. -/
def pickOStr (a b : Option String) : Option String :=
  if emptyOStr b then a else b

/-- `pick` at nullable-number leaves. -/
def pickOInt (a b : Option Int) : Option Int :=
  if emptyOInt b then a else b

/-- `pick` at list leaves (a zero-length array is empty). -/
def pickList (a b : List String) : List String :=
  if b.isEmpty then a else b

/-- JS `a || b` on strings (only `""` is falsy), used for the id fields. -/
def jsOrStr (a b : String) : String :=
  if a == "" then b else a

/-- The whitespace class removed by JS `String.prototype.trim`:
WhiteSpace (TAB, VT, FF, SP, NBSP, ZWNBSP and the Zs space separators)
plus the LineTerminator characters. -/
def jsWhitespace (c : Char) : Bool :=
  c = ' ' || c = '\t' || c = '\n' || c = '\r' || c = '\x0b' || c = '\x0c' ||
  c = '\u00a0' || c = '\ufeff' || c = '\u1680' ||
  (0x2000 ≤ c.toNat && c.toNat ≤ 0x200a) ||
  c = '\u202f' || c = '\u205f' || c = '\u3000' || c = '\u2028' || c = '\u2029'

/-- Strip leading and trailing whitespace from a character list. -/
def trimListChar (l : List Char) : List Char :=
  ((l.dropWhile jsWhitespace).reverse.dropWhile jsWhitespace).reverse

/-- JS `userText.trim()`. -/
def jsTrim (s : String) : String := String.mk (trimListChar s.data)

/- ─── Case Profile schema (caseProfileTypes.ts) ───────────────────────── -/

/-- Modelled from the spec: the file `caseProfileTypes.ts` is not in the
source tree (only its importers are).  Section and leaf names are taken from
the profile renderer, the merge, the scorer and the extraction heuristics. -/
structure PatientInfo where
  age_years : Option Int
  sex : Option String
  immunocompromised : Option String
  weight_kg : Option Int
  comorbidities : List String
  medications : List String
  allergies : Option String
deriving DecidableEq, Repr

structure PresentationInfo where
  chief_complaint : Option String
  symptom_duration : Option String
  hpi : Option String
  pmh : Option String
deriving DecidableEq, Repr

structure StudyInfo where
  modality : Option String
  body_region : Option String
  view_position : Option String
  radiology_region : Option String
  caption : Option String
  image_type : Option String
  image_subtype : Option String
  image_url : Option String
  storage_path : Option String
deriving DecidableEq, Repr

structure AssessmentInfo where
  diagnosis_primary : Option String
  suspected_primary : List String
  differential : List String
  urgency : Option String
  infectious_concern : Option String
  icu_candidate : Option String
deriving DecidableEq, Repr

structure LungsFindings where
  consolidation_present : Option String
  atelectasis_present : Option String
  edema_present : Option String
  edema_pattern : Option String
deriving DecidableEq, Repr

structure PleuraFindings where
  effusion_present : Option String
  effusion_side : Option String
  pneumothorax_present : Option String
deriving DecidableEq, Repr

structure CardiomediastinalFindings where
  cardiomegaly : Option String
  mediastinal_widening : Option String
deriving DecidableEq, Repr

structure DevicesFindings where
  lines_tubes_present : Option String
  device_list : List String
deriving DecidableEq, Repr

structure FindingsInfo where
  lungs : LungsFindings
  pleura : PleuraFindings
  cardiomediastinal : CardiomediastinalFindings
  devices : DevicesFindings
deriving DecidableEq, Repr

structure SummaryInfo where
  one_liner : Option String
  key_points : List String
  red_flags : List String
deriving DecidableEq, Repr

structure OutcomeInfo where
  success : Option String
  detail : Option String
deriving DecidableEq, Repr

structure ProvenanceInfo where
  dataset : Option String
  pmc_id : Option String
  pmid : Option String
  doi : Option String
  article_title : Option String
  journal : Option String
  year : Option Int
  authors : List String
  license : Option String
  source_url : Option String
deriving DecidableEq, Repr

structure TagsInfo where
  ml_labels : List String
  gt_labels : List String
  keywords : List String
  mesh_terms : List String
deriving DecidableEq, Repr

structure CaseProfile where
  profile_id : String
  case_id : String
  image_id : String
  patient : PatientInfo
  presentation : PresentationInfo
  study : StudyInfo
  assessment : AssessmentInfo
  findings : FindingsInfo
  summary : SummaryInfo
  outcome : OutcomeInfo
  provenance : ProvenanceInfo
  tags : TagsInfo
deriving DecidableEq, Repr

/-- Modelled from the spec: `emptyProfile()` from caseProfileTypes.ts is not
in the source tree; per the spec a profile is "created empty at conversation
start" and every leaf is independently nullable/emptiable ("empty" being
null, undefined, the empty string, or a zero-length list). -/
def emptyProfile : CaseProfile where
  profile_id := ""
  case_id := ""
  image_id := ""
  patient :=
    { age_years := none, sex := none, immunocompromised := none,
      weight_kg := none, comorbidities := [], medications := [],
      allergies := none }
  presentation :=
    { chief_complaint := none, symptom_duration := none, hpi := none,
      pmh := none }
  study :=
    { modality := none, body_region := none, view_position := none,
      radiology_region := none, caption := none, image_type := none,
      image_subtype := none, image_url := none, storage_path := none }
  assessment :=
    { diagnosis_primary := none, suspected_primary := [], differential := [],
      urgency := none, infectious_concern := none, icu_candidate := none }
  findings :=
    { lungs := { consolidation_present := none, atelectasis_present := none,
                 edema_present := none, edema_pattern := none },
      pleura := { effusion_present := none, effusion_side := none,
                  pneumothorax_present := none },
      cardiomediastinal := { cardiomegaly := none,
                             mediastinal_widening := none },
      devices := { lines_tubes_present := none, device_list := [] } }
  summary := { one_liner := none, key_points := [], red_flags := [] }
  outcome := { success := none, detail := none }
  provenance :=
    { dataset := none, pmc_id := none, pmid := none, doi := none,
      article_title := none, journal := none, year := none, authors := [],
      license := none, source_url := none }
  tags := { ml_labels := [], gt_labels := [], keywords := [],
            mesh_terms := [] }

/- ─── Completeness scorer (computeProfileConfidence) ──────────────────── -/

structure ConfidenceField where
  label : String
  filled : CaseProfile → Bool

/-- The fixed, ordered 13-entry checklist of caseProfileUtils.ts. -/
def CONFIDENCE_FIELDS : List ConfidenceField := [
  { label := "Patient age", filled := fun p => p.patient.age_years.isSome },
  { label := "Patient sex", filled := fun p => truthyOStr p.patient.sex },
  { label := "Comorbidities",
    filled := fun p => decide (0 < p.patient.comorbidities.length) },
  { label := "Chief complaint",
    filled := fun p => truthyOStr p.presentation.chief_complaint },
  { label := "HPI", filled := fun p => truthyOStr p.presentation.hpi },
  { label := "PMH", filled := fun p => truthyOStr p.presentation.pmh },
  { label := "Imaging modality",
    filled := fun p => truthyOStr p.study.modality },
  { label := "Body region",
    filled := fun p => truthyOStr p.study.body_region },
  { label := "Image available",
    filled := fun p => truthyOStr p.study.image_url },
  { label := "Primary diagnosis",
    filled := fun p => truthyOStr p.assessment.diagnosis_primary },
  { label := "Urgency", filled := fun p => truthyOStr p.assessment.urgency },
  { label := "Summary one-liner",
    filled := fun p => truthyOStr p.summary.one_liner },
  { label := "Key points",
    filled := fun p => decide (0 < p.summary.key_points.length) }]

structure ConfidenceResult where
  score : Nat
  filled : Nat
  total : Nat
  missing : List String
deriving DecidableEq, Repr

/-- Exact-rational model of JS `Math.round((filled / total) * 100)`:
`floor(100 * filled / total + 1/2)` (for the values 0..13/13 the float
evaluation agrees with the exact one). -/
def roundPercent (filled total : Nat) : Nat :=
  (200 * filled + total) / (2 * total)

def computeProfileConfidence (profile : CaseProfile) : ConfidenceResult :=
  let total := CONFIDENCE_FIELDS.length
  let filledFields := CONFIDENCE_FIELDS.filter (fun f => f.filled profile)
  let missingFields := CONFIDENCE_FIELDS.filter (fun f => !(f.filled profile))
  { score := roundPercent filledFields.length total,
    filled := filledFields.length,
    total := total,
    missing := missingFields.map (fun f => f.label) }

/- ─── Profile merge (mergeProfiles) ───────────────────────────────────── -/

/-- agenticOrchestrator.ts `mergeProfiles`.  Note the `...next` object
spread: the findings, summary-adjacent sections NOT listed explicitly —
findings, outcome, provenance and tags — are taken wholesale from `next`. -/
def mergeProfiles (base next : CaseProfile) : CaseProfile :=
  { profile_id := jsOrStr next.profile_id base.profile_id,
    case_id := jsOrStr next.case_id base.case_id,
    image_id := jsOrStr next.image_id base.image_id,
    patient :=
      { age_years := pickOInt base.patient.age_years next.patient.age_years,
        sex := pickOStr base.patient.sex next.patient.sex,
        immunocompromised :=
          pickOStr base.patient.immunocompromised next.patient.immunocompromised,
        weight_kg := pickOInt base.patient.weight_kg next.patient.weight_kg,
        comorbidities :=
          pickList base.patient.comorbidities next.patient.comorbidities,
        medications :=
          pickList base.patient.medications next.patient.medications,
        allergies := pickOStr base.patient.allergies next.patient.allergies },
    presentation :=
      { chief_complaint :=
          pickOStr base.presentation.chief_complaint next.presentation.chief_complaint,
        symptom_duration :=
          pickOStr base.presentation.symptom_duration next.presentation.symptom_duration,
        hpi := pickOStr base.presentation.hpi next.presentation.hpi,
        pmh := pickOStr base.presentation.pmh next.presentation.pmh },
    study :=
      { modality := pickOStr base.study.modality next.study.modality,
        body_region := pickOStr base.study.body_region next.study.body_region,
        view_position :=
          pickOStr base.study.view_position next.study.view_position,
        radiology_region :=
          pickOStr base.study.radiology_region next.study.radiology_region,
        caption := pickOStr base.study.caption next.study.caption,
        image_type := pickOStr base.study.image_type next.study.image_type,
        image_subtype :=
          pickOStr base.study.image_subtype next.study.image_subtype,
        image_url := pickOStr base.study.image_url next.study.image_url,
        storage_path :=
          pickOStr base.study.storage_path next.study.storage_path },
    assessment :=
      { diagnosis_primary :=
          pickOStr base.assessment.diagnosis_primary next.assessment.diagnosis_primary,
        suspected_primary :=
          pickList base.assessment.suspected_primary next.assessment.suspected_primary,
        differential :=
          pickList base.assessment.differential next.assessment.differential,
        urgency := pickOStr base.assessment.urgency next.assessment.urgency,
        infectious_concern :=
          pickOStr base.assessment.infectious_concern next.assessment.infectious_concern,
        icu_candidate :=
          pickOStr base.assessment.icu_candidate next.assessment.icu_candidate },
    findings := next.findings,
    summary :=
      { one_liner := pickOStr base.summary.one_liner next.summary.one_liner,
        key_points := pickList base.summary.key_points next.summary.key_points,
        red_flags := pickList base.summary.red_flags next.summary.red_flags },
    outcome := next.outcome,
    provenance := next.provenance,
    tags := next.tags }

/- ─── Profile diff (diffProfileFields) ────────────────────────────────── -/

/-- One `check(label, a, b)` of diffProfileFields at a nullable string. -/
def diffCheckOStr (label : String) (a b : Option String) : List String :=
  if emptyOStr a && !emptyOStr b then [label]
  else if !emptyOStr a && !emptyOStr b && a != b then [label]
  else []

def diffCheckOInt (label : String) (a b : Option Int) : List String :=
  if emptyOInt a && !emptyOInt b then [label]
  else if !emptyOInt a && !emptyOInt b && a != b then [label]
  else []

def diffCheckList (label : String) (a b : List String) : List String :=
  if a.isEmpty && !b.isEmpty then [label]
  else if !a.isEmpty && !b.isEmpty && a != b then [label]
  else []

/-- agenticOrchestrator.ts `diffProfileFields`: the ordered label list.
`JSON.stringify(a) !== JSON.stringify(b)` on these leaf types coincides with
structural inequality. -/
def diffProfileFields (prev next : CaseProfile) : List String :=
  diffCheckOInt "Age" prev.patient.age_years next.patient.age_years ++
  diffCheckOStr "Sex" prev.patient.sex next.patient.sex ++
  diffCheckList "Comorbidities" prev.patient.comorbidities
    next.patient.comorbidities ++
  diffCheckOStr "Allergies" prev.patient.allergies next.patient.allergies ++
  diffCheckList "Medications" prev.patient.medications
    next.patient.medications ++
  diffCheckOStr "Chief complaint" prev.presentation.chief_complaint
    next.presentation.chief_complaint ++
  diffCheckOStr "HPI" prev.presentation.hpi next.presentation.hpi ++
  diffCheckOStr "PMH" prev.presentation.pmh next.presentation.pmh ++
  diffCheckOStr "Symptom duration" prev.presentation.symptom_duration
    next.presentation.symptom_duration ++
  diffCheckOStr "Imaging modality" prev.study.modality next.study.modality ++
  diffCheckOStr "Body region" prev.study.body_region next.study.body_region ++
  diffCheckOStr "View position" prev.study.view_position
    next.study.view_position ++
  diffCheckOStr "Primary diagnosis" prev.assessment.diagnosis_primary
    next.assessment.diagnosis_primary ++
  diffCheckOStr "Urgency" prev.assessment.urgency next.assessment.urgency ++
  diffCheckList "Differential" prev.assessment.differential
    next.assessment.differential ++
  diffCheckOStr "Summary" prev.summary.one_liner next.summary.one_liner

/- ─── Follow-up policy (agenticCopilot.ts) ────────────────────────────── -/

structure PriorityField where
  key : String
  label : String
  category : String
  question : String
deriving DecidableEq, Repr

/-- The static, ordered priority checklist of agenticCopilot.ts. -/
def PRIORITY_CHECKLIST : List PriorityField := [
  { key := "patient.age_years", label := "Patient age", category := "Patient",
    question := "How old is the patient?" },
  { key := "patient.sex", label := "Patient sex", category := "Patient",
    question := "What is the patient's biological sex?" },
  { key := "presentation.chief_complaint", label := "Chief complaint",
    category := "Presentation",
    question := "What is the patient's chief complaint or primary reason for this referral?" },
  { key := "presentation.hpi", label := "Clinical history (HPI)",
    category := "Presentation",
    question := "Can you share the history of present illness — symptom onset, progression, and key timeline?" },
  { key := "patient.comorbidities", label := "Comorbidities",
    category := "Patient",
    question := "Does the patient have any significant comorbidities — hypertension, diabetes, COPD, cardiac history?" },
  { key := "presentation.pmh", label := "Past medical history (PMH)",
    category := "Presentation",
    question := "What is the patient's past medical history — prior diagnoses, surgeries, or hospitalizations?" },
  { key := "assessment.diagnosis_primary", label := "Primary diagnosis",
    category := "Assessment",
    question := "What is the suspected or working primary diagnosis at this point?" },
  { key := "assessment.urgency", label := "Clinical urgency",
    category := "Assessment",
    question := "How would you classify the urgency — emergent, semi-urgent, or routine?" },
  { key := "study.modality", label := "Imaging modality",
    category := "Imaging",
    question := "What imaging modality was used — CT, MRI, CXR, or another?" }]

/-- A dynamically looked-up leaf value (the result type of the untyped
`getNestedValue(profile, path)`), restricted to the leaf kinds present in
the profile. -/
inductive Leaf where
  | oInt (v : Option Int)
  | oStr (v : Option String)
  | lStr (v : List String)
  | undef
deriving DecidableEq, Repr

/-- agenticCopilot.ts `isEmpty` applied to a looked-up leaf
(`undefined` for an unknown path is empty). -/
def leafIsEmpty : Leaf → Bool
  | .oInt v => v.isNone
  | .oStr none => true
  | .oStr (some s) => s == ""
  | .lStr l => l.isEmpty
  | .undef => true

/-- `getNestedValue(profile, path)` for the nine checklist paths; any other
path yields `undefined`. -/
def getProfileLeaf (p : CaseProfile) (path : String) : Leaf :=
  if path = "patient.age_years" then .oInt p.patient.age_years
  else if path = "patient.sex" then .oStr p.patient.sex
  else if path = "presentation.chief_complaint" then
    .oStr p.presentation.chief_complaint
  else if path = "presentation.hpi" then .oStr p.presentation.hpi
  else if path = "patient.comorbidities" then .lStr p.patient.comorbidities
  else if path = "presentation.pmh" then .oStr p.presentation.pmh
  else if path = "assessment.diagnosis_primary" then
    .oStr p.assessment.diagnosis_primary
  else if path = "assessment.urgency" then .oStr p.assessment.urgency
  else if path = "study.modality" then .oStr p.study.modality
  else .undef

structure AgenticFollowup where
  thought : String
  message : String
  priority_fields : List String
deriving DecidableEq, Repr

/-- The ordered still-missing priority fields. -/
def missingPriorityFields (profile : CaseProfile) : List PriorityField :=
  PRIORITY_CHECKLIST.filter
    (fun item => leafIsEmpty (getProfileLeaf profile item.key))

/-- agenticCopilot.ts `generateAgenticFollowup`: the score-tiered message
policy. -/
def generateAgenticFollowup (profile : CaseProfile) (confidence : Nat) :
    AgenticFollowup :=
  let missingPriority := missingPriorityFields profile
  let priority := missingPriority.map (fun m => m.key)
  if confidence = 0 then
    { thought := "Profile empty. Awaiting initial data.",
      message := "I've set up your case profile. Share imaging impressions, paste a referral note, or upload a file and I'll begin populating the structured fields.",
      priority_fields := priority }
  else if confidence < 35 then
    { thought := "Very low confidence (" ++ toString confidence ++
        "%). Nudging for " ++
        (match missingPriority.head? with
          | some f => f.label
          | none => "more data") ++ ".",
      message := "I've started building the profile. To move forward: " ++
        (match missingPriority.head? with
          | some f => f.question
          | none => "Can you share more clinical detail?"),
      priority_fields := priority }
  else if confidence < 60 then
    { thought := "Moderate progress (" ++ toString confidence ++
        "%). Focus on " ++
        (match missingPriority.head? with
          | some f => f.category
          | none => "details") ++ ".",
      message :=
        match missingPriority.head? with
        | some f => "Profile is taking shape. Next: " ++ f.question
        | none =>
          "Looking good — a bit more detail would help strengthen the assessment.",
      priority_fields := priority }
  else if confidence < 85 then
    { thought := "Good confidence (" ++ toString confidence ++
        "%). Polishing.",
      message :=
        match missingPriority.head? with
        | some f => "Profile is strong. One more detail: " ++ f.question
        | none =>
          "The profile is very comprehensive. Ready to proceed when you are.",
      priority_fields := priority }
  else
    { thought := "Comprehensive profile reached.",
      message := "This case profile is detailed and complete. I've captured all critical fields — you can proceed to finding case matches.",
      priority_fields := priority }

/-- agenticCopilot.ts `getTargetedQuestion`. -/
def getTargetedQuestion (fieldKey : String) : String :=
  match (PRIORITY_CHECKLIST.find? (fun f => f.key == fieldKey)) with
  | some item => item.question
  | none => "Can you provide more detail on this aspect of the case?"

/- ─── Regex models for the keyword heuristics ─────────────────────────── -/

/-- JS `\w` word character. -/
def jsWordChar (c : Char) : Bool := c.isAlphanum || c = '_'

def lowerList (s : String) : List Char := s.data.map Char.toLower

def startsWithL : List Char → List Char → Bool
  | [], _ => true
  | _ :: _, [] => false
  | n :: ns, h :: hs => n == h && startsWithL ns hs

def containsAtL (needle : List Char) : List Char → Bool
  | [] => needle.isEmpty
  | c :: hs => startsWithL needle (c :: hs) || containsAtL needle hs

/-- Case-insensitive substring test: models `/lit/i.test(hay)` for a literal
alternative without word boundaries. -/
def containsCI (hay needle : String) : Bool :=
  containsAtL (lowerList needle) (lowerList hay)

def startsWithBoundaryL : List Char → List Char → Bool
  | [], [] => true
  | [], c :: _ => !jsWordChar c
  | _ :: _, [] => false
  | n :: ns, h :: hs => n == h && startsWithBoundaryL ns hs

def containsBoundaryL (needle : List Char) : List Char → Bool
  | [] => startsWithBoundaryL needle []
  | c :: hs => startsWithBoundaryL needle (c :: hs) || containsBoundaryL needle hs

/-- Case-insensitive test of `/lit\b/i`: the literal followed by a word
boundary (end of string or a non-word character). -/
def containsWordEndCI (hay needle : String) : Bool :=
  containsBoundaryL (lowerList needle) (lowerList hay)

/-- `/female|woman|F\b/i` -/
def testSexFemale (t : String) : Bool :=
  containsCI t "female" || containsCI t "woman" || containsWordEndCI t "f"

/-- `/male|man|M\b/i` -/
def testSexMale (t : String) : Bool :=
  containsCI t "male" || containsCI t "man" || containsWordEndCI t "m"

/-- `/emergent|emergency|stat|critical|immediate/i` -/
def testUrgencyEmergent (t : String) : Bool :=
  containsCI t "emergent" || containsCI t "emergency" || containsCI t "stat" ||
  containsCI t "critical" || containsCI t "immediate"

/-- `/semi[- ]urgent|soon|within|24h/i` -/
def testUrgencySemi (t : String) : Bool :=
  containsCI t "semi-urgent" || containsCI t "semi urgent" ||
  containsCI t "soon" || containsCI t "within" || containsCI t "24h"

/-- `/routine|elective|scheduled|non[- ]urgent/i` -/
def testUrgencyRoutine (t : String) : Bool :=
  containsCI t "routine" || containsCI t "elective" ||
  containsCI t "scheduled" || containsCI t "non-urgent" ||
  containsCI t "non urgent"

/-- The comorbidity keyword map of the `presentation.pmh` patch case. -/
def pmhComorbMap : List ((String → Bool) × String) := [
  (fun t => containsCI t "hypertension" || containsCI t "htn", "hypertension"),
  (fun t => containsCI t "type 2 diabet" || containsCI t "t2dm",
    "type 2 diabetes"),
  (fun t => containsCI t "type 1 diabet" || containsCI t "t1dm",
    "type 1 diabetes"),
  (fun t => containsCI t "atrial fibrillation" || containsWordEndCI t "af" ||
    containsCI t "afib", "atrial fibrillation"),
  (fun t => containsCI t "heart failure" || containsCI t "chf",
    "heart failure"),
  (fun t => containsCI t "copd" || containsCI t "chronic obstructive", "COPD"),
  (fun t => containsCI t "asthma", "asthma"),
  (fun t => containsCI t "ckd" || containsCI t "chronic kidney",
    "chronic kidney disease"),
  (fun t => containsCI t "cad" || containsCI t "coronary artery",
    "coronary artery disease"),
  (fun t => containsCI t "cancer" || containsCI t "malignancy", "malignancy")]

/-- The comorbidity keyword map of the `patient.comorbidities` patch case. -/
def comorbidityAnswerMap : List ((String → Bool) × String) := [
  (fun t => containsCI t "hypertension" || containsCI t "htn", "hypertension"),
  (fun t => containsCI t "type 2 diabet" || containsCI t "t2dm",
    "type 2 diabetes"),
  (fun t => containsCI t "type 1 diabet" || containsCI t "t1dm",
    "type 1 diabetes"),
  (fun t => containsCI t "atrial fibrillation" || containsWordEndCI t "af" ||
    containsCI t "afib", "atrial fibrillation"),
  (fun t => containsCI t "heart failure" || containsCI t "chf",
    "heart failure"),
  (fun t => containsCI t "copd" || containsCI t "chronic obstructive", "COPD"),
  (fun t => containsCI t "asthma", "asthma"),
  (fun t => containsCI t "ckd" || containsCI t "chronic kidney",
    "chronic kidney disease"),
  (fun t => containsCI t "cad" || containsCI t "coronary artery",
    "coronary artery disease"),
  (fun t => containsCI t "obesity", "obesity"),
  (fun t => containsCI t "cancer" || containsCI t "malignancy", "malignancy"),
  (fun t => containsCI t "diabetes", "diabetes")]

/-- `/CT|computed tomography/i` etc. for the `study.modality` patch case. -/
def testModalityCT (t : String) : Bool :=
  containsCI t "ct" || containsCI t "computed tomography"
def testModalityMRI (t : String) : Bool := containsCI t "mri"
def testModalityXray (t : String) : Bool :=
  containsCI t "x-ray" || containsCI t "x ray" || containsCI t "xray" ||
  containsCI t "cxr" || containsCI t "chest x"
def testModalityPET (t : String) : Bool := containsCI t "pet"
def testModalityUS (t : String) : Bool :=
  containsCI t "ultrasound" || containsWordEndCI t "us"

/-- `text.match(/(\d{1,3})/)`: the first digit position, greedily up to three
digits. -/
def firstDigitRun : List Char → Option (List Char)
  | [] => none
  | c :: rest =>
    if c.isDigit then some (((c :: rest).takeWhile Char.isDigit).take 3)
    else firstDigitRun rest

def digitsToNat (ds : List Char) : Nat :=
  ds.foldl (fun acc c => acc * 10 + (c.toNat - 48)) 0

/-- `[...new Set(l)]`: JS Set iteration order keeps first occurrences. -/
def jsSetDedup (l : List String) : List String :=
  go [] l
where
  go (seen : List String) : List String → List String
    | [] => []
    | x :: rest =>
      if x ∈ seen then go seen rest else x :: go (x :: seen) rest

/- ─── Single-field patch (patchProfileFromAnswer) ─────────────────────── -/

/-- JS template-literal rendering of a nullable number (only reached when
the value is truthy, so the `"null"` branch is dead in practice). -/
def jsNumStr : Option Int → String
  | some n => toString n
  | none => "null"

def jsStrOrNull : Option String → String
  | some s => s
  | none => "null"

/-- The truthiness conjunction guarding the one-liner regeneration:
`patched.patient.age_years && patched.patient.sex &&
patched.assessment.diagnosis_primary`. -/
def regenFires (p : CaseProfile) : Bool :=
  truthyOInt p.patient.age_years && truthyOStr p.patient.sex &&
  truthyOStr p.assessment.diagnosis_primary

/-- The regenerated one-liner template of `patchProfileFromAnswer`. -/
def regenOneLiner (p : CaseProfile) : String :=
  let meds := String.intercalate ", " (p.patient.comorbidities.take 2)
  jsNumStr p.patient.age_years ++ "-year-old " ++
  jsStrOrNull p.patient.sex ++ " with " ++
  (if meds == "" then "relevant comorbidities" else meds) ++
  " presenting with " ++
  (match p.presentation.chief_complaint with
    | some c => c
    | none => jsStrOrNull p.assessment.diagnosis_primary) ++ "."

/-- The final step of `patchProfileFromAnswer`: regenerate the summary
one-liner when age, sex and primary diagnosis are all truthy. -/
def regenStep (p : CaseProfile) : CaseProfile :=
  if regenFires p then
    { p with summary := { p.summary with one_liner := some (regenOneLiner p) } }
  else p

/-- The `switch (fieldKey)` body of `patchProfileFromAnswer` (the deep JSON
clone of the input is the identity on pure values). -/
def patchSwitch (fieldKey text : String) (profile : CaseProfile) :
    CaseProfile :=
  if fieldKey = "patient.age_years" then
    match firstDigitRun text.data with
    | some ds =>
      { profile with patient :=
          { profile.patient with age_years := some (Int.ofNat (digitsToNat ds)) } }
    | none => profile
  else if fieldKey = "patient.sex" then
    if testSexFemale text then
      { profile with patient := { profile.patient with sex := some "female" } }
    else if testSexMale text then
      { profile with patient := { profile.patient with sex := some "male" } }
    else profile
  else if fieldKey = "presentation.chief_complaint" then
    { profile with presentation :=
        { profile.presentation with chief_complaint := some text } }
  else if fieldKey = "presentation.hpi" then
    { profile with presentation := { profile.presentation with hpi := some text } }
  else if fieldKey = "presentation.pmh" then
    let found := (pmhComorbMap.filter (fun e => e.1 text)).map (fun e => e.2)
    let base :=
      { profile with presentation := { profile.presentation with pmh := some text } }
    if 0 < found.length then
      let com2 := jsSetDedup (base.patient.comorbidities ++ found)
      { base with patient := { base.patient with comorbidities := com2 } }
    else base
  else if fieldKey = "patient.comorbidities" then
    let found :=
      (comorbidityAnswerMap.filter (fun e => e.1 text)).map (fun e => e.2)
    if 0 < found.length then
      let com2 := jsSetDedup (profile.patient.comorbidities ++ found)
      { profile with patient := { profile.patient with comorbidities := com2 } }
    else if 3 < text.length then
      let com2 := profile.patient.comorbidities ++ [text]
      { profile with patient := { profile.patient with comorbidities := com2 } }
    else profile
  else if fieldKey = "assessment.diagnosis_primary" then
    let withDiag :=
      { profile with assessment :=
          { profile.assessment with diagnosis_primary := some text } }
    if withDiag.assessment.suspected_primary.contains text then withDiag
    else
      { withDiag with assessment :=
          { withDiag.assessment with suspected_primary :=
              text :: withDiag.assessment.suspected_primary } }
  else if fieldKey = "assessment.urgency" then
    if testUrgencyEmergent text then
      { profile with assessment :=
          { profile.assessment with urgency := some "emergent" } }
    else if testUrgencySemi text then
      { profile with assessment :=
          { profile.assessment with urgency := some "semi-urgent" } }
    else if testUrgencyRoutine text then
      { profile with assessment :=
          { profile.assessment with urgency := some "routine" } }
    else
      { profile with assessment :=
          { profile.assessment with urgency := some text } }
  else if fieldKey = "study.modality" then
    let m :=
      if testModalityCT text then "CT"
      else if testModalityMRI text then "MRI"
      else if testModalityXray text then "CXR"
      else if testModalityPET text then "PET"
      else if testModalityUS text then "Ultrasound"
      else text
    { profile with study := { profile.study with modality := some m } }
  else profile

/-- agenticCopilot.ts `patchProfileFromAnswer`. -/
def patchProfileFromAnswer (fieldKey answer : String)
    (profile : CaseProfile) : CaseProfile :=
  let text := jsTrim answer
  regenStep (patchSwitch fieldKey text profile)

/-- agenticCopilot.ts `summarizePatch`. -/
def summarizePatch (fields : List String) : String :=
  match fields with
  | [] => ""
  | [f] => "✓ Profile updated — captured " ++ f ++ "."
  | _ =>
    if fields.length ≤ 3 then
      "✓ Profile updated — captured: " ++ String.intercalate ", " fields ++ "."
    else
      "✓ Profile updated — captured " ++ toString fields.length ++
      " fields: " ++ String.intercalate ", " (fields.take 3) ++ ", and " ++
      toString (fields.length - 3) ++ " more."

/- ─── Turn orchestrator (agenticOrchestrator.ts) ──────────────────────── -/

inductive OrchestratorPhase where
  | greeting
  | extracting
  | patching
  | questioning
  | ready
deriving DecidableEq, Repr

inductive MessageRole where
  | user
  | assistant
deriving DecidableEq, Repr

inductive MessageType where
  | text
  | file_attach
  | thinking
  | confidence_update
  | field_patch
  | cta
deriving DecidableEq, Repr

structure FileInfo where
  name : String
  type : String
  preview : Option String
deriving DecidableEq, Repr

/-- An orchestrator log entry.  The nondeterministic `msg-`-prefixed id of
the source (built from `Date.now()` and a module counter) carries no data
used anywhere and is omitted. -/
structure OrchestratorMessage where
  role : MessageRole
  type : MessageType
  content : String
  files : List FileInfo := []
  patchedFields : List String := []
  confidence : Option Nat := none
deriving DecidableEq, Repr

structure OrchestratorState where
  profile : CaseProfile
  phase : OrchestratorPhase
  messages : List OrchestratorMessage
  currentQuestion : Option String
  readyToProceed : Bool
deriving DecidableEq, Repr

/-- Confidence percentage required for the proceed CTA / ready phase. -/
def READY_THRESHOLD : Nat := 60

def createInitialState : OrchestratorState where
  profile := emptyProfile
  phase := .greeting
  messages := [{ role := .assistant, type := .text,
                 content := "Clinical Copilot online. I'll guide you through building a complete case profile.\n\nDrop imaging studies (DICOM, JPG, PNG) or documents (PDF, DOCX, TXT) directly into the chat, or paste a clinical note. I'll extract, structure, and ask follow-up questions until the profile is ready for routing." }]
  currentQuestion := none
  readyToProceed := false

/-- The metadata of an uploaded `File` as the orchestrator consumes it. -/
structure FileMeta where
  name : String
  type : String
deriving DecidableEq, Repr

/-- The turn's environment: the outcome of the awaited
`extractCaseProfile` call (an `Except.error` models a rejected promise,
caught by the orchestrator's `try/catch`), and the values produced by
`URL.createObjectURL` for previews and for the first uploaded image. -/
structure TurnOracle where
  extraction : Except Unit CaseProfile
  mkPreview : FileMeta → String
  localUrl : String

def isImageFile (f : FileMeta) : Bool :=
  f.type.startsWith "image/" || f.name.endsWith ".dcm"

/-- `[patchSummary, followup.message].filter(Boolean)`: drop nulls and empty
strings. -/
def jsFilterTruthyStr (l : List (Option String)) : List String :=
  (l.filterMap id).filter (fun s => !(s == ""))

/-- The user message built at the top of `processIntakeTurn`. -/
def mkUserMessage (o : TurnOracle) (userText : String)
    (files : List FileMeta) : OrchestratorMessage :=
  { role := .user,
    type := if 0 < files.length ∧ jsTrim userText = "" then .file_attach
            else .text,
    content := jsTrim userText,
    files := files.map (fun f =>
      { name := f.name, type := f.type,
        preview := if f.type.startsWith "image/" then some (o.mkPreview f)
                   else none }) }

/-- `if (localImageUrl && !mergedProfile.study.image_url)`: inject the local
object URL for the first uploaded image. -/
def injectLocalImage (localImageUrl : Option String) (m : CaseProfile) :
    CaseProfile :=
  match localImageUrl with
  | some u =>
    if !(u == "") && emptyOStr m.study.image_url then
      { m with study := { m.study with image_url := some u } }
    else m
  | none => m

/-- Path A — full extraction (files present or substantive text). -/
def pathAState (ext : Except Unit CaseProfile)
    (localImageUrl : Option String) (userMessage : OrchestratorMessage)
    (s : OrchestratorState) : OrchestratorState :=
  let prevProfile := s.profile
  let newProfile := match ext with
    | .ok p => p
    | .error _ => prevProfile
  let mergedProfile :=
    injectLocalImage localImageUrl (mergeProfiles prevProfile newProfile)
  let conf := computeProfileConfidence mergedProfile
  let patchedFields := diffProfileFields prevProfile mergedProfile
  let followup := generateAgenticFollowup mergedProfile conf.score
  let patchSummary : Option String :=
    if 0 < patchedFields.length then some (summarizePatch patchedFields)
    else none
  let assistantContent := String.intercalate "\n\n"
    (jsFilterTruthyStr [patchSummary, some followup.message])
  let allMessages : List OrchestratorMessage :=
    [userMessage] ++
    (if 0 < patchedFields.length then
      [{ role := .assistant, type := .field_patch, content := "",
         patchedFields := patchedFields }]
     else []) ++
    [{ role := .assistant, type := .confidence_update,
       content := "Profile completeness: " ++ toString conf.score ++ "%",
       confidence := some conf.score },
     { role := .assistant, type := .text, content := assistantContent }] ++
    (if READY_THRESHOLD ≤ conf.score then
      [{ role := .assistant, type := .cta,
         content := "The profile is comprehensive. You can proceed to find case matches.",
         confidence := some conf.score }]
     else [])
  { profile := mergedProfile,
    phase := if READY_THRESHOLD ≤ conf.score then .ready else .questioning,
    messages := s.messages ++ allMessages,
    currentQuestion := followup.priority_fields.head?,
    readyToProceed := decide (READY_THRESHOLD ≤ conf.score) }

/-- Path B — targeted patch of the pending question's field. -/
def pathBState (q trimmed : String) (userMessage : OrchestratorMessage)
    (s : OrchestratorState) : OrchestratorState :=
  let prevProfile := s.profile
  let patched := patchProfileFromAnswer q trimmed prevProfile
  let conf := computeProfileConfidence patched
  let patchedFields := diffProfileFields prevProfile patched
  let followup := generateAgenticFollowup patched conf.score
  let allMessages : List OrchestratorMessage :=
    [userMessage,
     { role := .assistant, type := .thinking,
       content := "Updating case profile…" }] ++
    (if 0 < patchedFields.length then
      [{ role := .assistant, type := .field_patch, content := "",
         patchedFields := patchedFields }]
     else []) ++
    [{ role := .assistant, type := .confidence_update,
       content := "Profile completeness: " ++ toString conf.score ++ "%",
       confidence := some conf.score },
     { role := .assistant, type := .text, content := followup.message }] ++
    (if READY_THRESHOLD ≤ conf.score then
      [{ role := .assistant, type := .cta,
         content := "The profile is comprehensive. You can proceed to find case matches.",
         confidence := some conf.score }]
     else [])
  { profile := patched,
    phase := if READY_THRESHOLD ≤ conf.score then .ready else .questioning,
    messages := s.messages ++ allMessages,
    currentQuestion := followup.priority_fields.head?,
    readyToProceed := decide (READY_THRESHOLD ≤ conf.score) }

/-- Path C — fallback nudge; profile and phase unchanged. -/
def pathCState (userMessage : OrchestratorMessage)
    (s : OrchestratorState) : OrchestratorState :=
  { s with messages := s.messages ++
      [userMessage,
       { role := .assistant, type := .text,
         content := "Got it! To build up the case profile, try sharing clinical notes (at least a few sentences) or upload an imaging study." }] }

/-- agenticOrchestrator.ts `processIntakeTurn` (the `{ newState }` wrapper of
the source is dropped; the async extraction call and its `try/catch` are the
`TurnOracle.extraction` input).  Total by construction: the source catches
the only fallible call. -/
def processIntakeTurn (o : TurnOracle) (userText : String)
    (files : List FileMeta) (currentState : OrchestratorState) :
    OrchestratorState :=
  let trimmed := jsTrim userText
  let userMessage := mkUserMessage o userText files
  let firstImageFile := files.find? (fun f => isImageFile f)
  let localImageUrl : Option String :=
    if firstImageFile.isSome then some o.localUrl else none
  if 0 < files.length ∨ 30 < trimmed.length then
    pathAState o.extraction localImageUrl userMessage currentState
  else
    match currentState.currentQuestion with
    | some q =>
      if 0 < trimmed.length ∧ q ≠ "" then
        pathBState q trimmed userMessage currentState
      else pathCState userMessage currentState
    | none => pathCState userMessage currentState

/-- One conversational turn (inputs plus the turn's environment). -/
structure TurnInput where
  oracle : TurnOracle
  text : String
  files : List FileMeta

/-- Fold a sequence of turns through the orchestrator. -/
def processTurns (s : OrchestratorState) : List TurnInput → OrchestratorState
  | [] => s
  | i :: rest => processTurns (processIntakeTurn i.oracle i.text i.files s) rest

/-- The states reachable from `createInitialState` through
`processIntakeTurn`. -/
inductive Reachable : OrchestratorState → Prop where
  | init : Reachable createInitialState
  | step (o : TurnOracle) (t : String) (fs : List FileMeta)
      {s : OrchestratorState} :
      Reachable s → Reachable (processIntakeTurn o t fs s)

/- ─── Helper lemmas: emptiness and pick ───────────────────────────────── -/

theorem truthyOStr_eq_not_empty (v : Option String) :
    truthyOStr v = !emptyOStr v := by
  cases v <;> rfl

theorem pickOStr_truthy (a b : Option String) (h : truthyOStr a = true) :
    truthyOStr (pickOStr a b) = true := by
  unfold pickOStr
  cases hb : emptyOStr b with
  | true => simpa [hb] using h
  | false =>
    simp only [hb, Bool.false_eq_true, if_false]
    rw [truthyOStr_eq_not_empty, hb]
    rfl

theorem pickOInt_isSome (a b : Option Int) (h : a.isSome = true) :
    (pickOInt a b).isSome = true := by
  unfold pickOInt emptyOInt
  cases b with
  | none => simpa using h
  | some n => simp

theorem pickList_pos (a b : List String) (h : 0 < a.length) :
    0 < (pickList a b).length := by
  unfold pickList
  cases b with
  | nil => simpa using h
  | cons c t => simp

theorem mergeProfiles_self (p : CaseProfile) : mergeProfiles p p = p := by
  unfold mergeProfiles pickOStr pickOInt pickList jsOrStr
  simp only [ite_self]

/- ─── Helper lemmas: filter length and score monotonicity ─────────────── -/

theorem length_filter_mono {α : Type} (l : List α) (p q : α → Bool)
    (h : ∀ a ∈ l, p a = true → q a = true) :
    (l.filter p).length ≤ (l.filter q).length := by
  induction l with
  | nil => simp
  | cons a t ih =>
    have ht : ∀ x ∈ t, p x = true → q x = true :=
      fun x hx => h x (List.mem_cons_of_mem _ hx)
    by_cases hp : p a = true
    · have hq := h a (List.mem_cons_self _ _) hp
      simp only [List.filter_cons, hp, if_true, hq, List.length_cons]
      exact Nat.succ_le_succ (ih ht)
    · by_cases hq : q a = true
      · simp only [List.filter_cons, hp, if_false, hq, if_true,
          List.length_cons]
        exact Nat.le_succ_of_le (ih ht)
      · simp only [List.filter_cons, hp, if_false, hq]
        exact ih ht

/-- Pointwise implications of the checklist predicates between two
profiles. -/
def FilledImp (p q : CaseProfile) : Prop :=
  ∀ f ∈ CONFIDENCE_FIELDS, f.filled p = true → f.filled q = true

theorem filledImp_refl (p : CaseProfile) : FilledImp p p :=
  fun _ _ h => h

theorem filledImp_trans {p q r : CaseProfile} (h1 : FilledImp p q)
    (h2 : FilledImp q r) : FilledImp p r :=
  fun f hf h => h2 f hf (h1 f hf h)

theorem score_mono {p q : CaseProfile} (h : FilledImp p q) :
    (computeProfileConfidence p).score ≤ (computeProfileConfidence q).score := by
  unfold computeProfileConfidence roundPercent
  simp only
  exact Nat.div_le_div_right
    (by
      have := length_filter_mono CONFIDENCE_FIELDS _ _ h
      omega)

theorem filledImp_intro (p q : CaseProfile)
    (h1 : p.patient.age_years.isSome = true →
      q.patient.age_years.isSome = true)
    (h2 : truthyOStr p.patient.sex = true → truthyOStr q.patient.sex = true)
    (h3 : 0 < p.patient.comorbidities.length →
      0 < q.patient.comorbidities.length)
    (h4 : truthyOStr p.presentation.chief_complaint = true →
      truthyOStr q.presentation.chief_complaint = true)
    (h5 : truthyOStr p.presentation.hpi = true →
      truthyOStr q.presentation.hpi = true)
    (h6 : truthyOStr p.presentation.pmh = true →
      truthyOStr q.presentation.pmh = true)
    (h7 : truthyOStr p.study.modality = true →
      truthyOStr q.study.modality = true)
    (h8 : truthyOStr p.study.body_region = true →
      truthyOStr q.study.body_region = true)
    (h9 : truthyOStr p.study.image_url = true →
      truthyOStr q.study.image_url = true)
    (h10 : truthyOStr p.assessment.diagnosis_primary = true →
      truthyOStr q.assessment.diagnosis_primary = true)
    (h11 : truthyOStr p.assessment.urgency = true →
      truthyOStr q.assessment.urgency = true)
    (h12 : truthyOStr p.summary.one_liner = true →
      truthyOStr q.summary.one_liner = true)
    (h13 : 0 < p.summary.key_points.length →
      0 < q.summary.key_points.length) :
    FilledImp p q := by
  intro f hf
  simp only [CONFIDENCE_FIELDS, List.mem_cons, List.not_mem_nil, or_false]
    at hf
  rcases hf with rfl|rfl|rfl|rfl|rfl|rfl|rfl|rfl|rfl|rfl|rfl|rfl|rfl <;>
    simp only [decide_eq_true_eq]
  · exact h1
  · exact h2
  · exact h3
  · exact h4
  · exact h5
  · exact h6
  · exact h7
  · exact h8
  · exact h9
  · exact h10
  · exact h11
  · exact h12
  · exact h13

/-- Non-regression of every checklist predicate across a merge. -/
theorem merge_filledImp (p q : CaseProfile) :
    FilledImp p (mergeProfiles p q) := by
  apply filledImp_intro
  · exact pickOInt_isSome _ _
  · exact pickOStr_truthy _ _
  · exact pickList_pos _ _
  · exact pickOStr_truthy _ _
  · exact pickOStr_truthy _ _
  · exact pickOStr_truthy _ _
  · exact pickOStr_truthy _ _
  · exact pickOStr_truthy _ _
  · exact pickOStr_truthy _ _
  · exact pickOStr_truthy _ _
  · exact pickOStr_truthy _ _
  · exact pickOStr_truthy _ _
  · exact pickList_pos _ _

/-- The local-image injection can only add the image URL. -/
theorem inject_filledImp (localImageUrl : Option String) (m : CaseProfile) :
    FilledImp m (injectLocalImage localImageUrl m) := by
  unfold injectLocalImage
  cases localImageUrl with
  | none => exact filledImp_refl m
  | some u =>
    dsimp only
    by_cases hc : (!(u == "") && emptyOStr m.study.image_url) = true
    · rw [if_pos hc]
      simp only [Bool.and_eq_true, Bool.not_eq_true'] at hc
      apply filledImp_intro <;> intro h <;>
        first
          | exact h
          | simp [truthyOStr, hc.1]
    · rw [if_neg hc]
      exact filledImp_refl m

/- ─── Helper lemmas: score bounds ─────────────────────────────────────── -/

theorem roundPercent_le_100 (f : Nat) (hf : f ≤ 13) :
    roundPercent f 13 ≤ 100 := by
  unfold roundPercent
  calc (200 * f + 13) / (2 * 13) ≤ (200 * 13 + 13) / (2 * 13) :=
        Nat.div_le_div_right (by omega)
    _ = 100 := by norm_num

theorem confidence_filled_le (p : CaseProfile) :
    (computeProfileConfidence p).filled ≤ 13 := by
  unfold computeProfileConfidence
  simpa using List.length_filter_le _ CONFIDENCE_FIELDS

theorem confidence_score_le_100 (p : CaseProfile) :
    (computeProfileConfidence p).score ≤ 100 := by
  have h := confidence_filled_le p
  unfold computeProfileConfidence at h ⊢
  simp only at h ⊢
  exact roundPercent_le_100 _ h

/- ─── Helper lemmas: trim idempotence ─────────────────────────────────── -/

theorem dropWhile_dropWhile {α : Type} (p : α → Bool) (l : List α) :
    (l.dropWhile p).dropWhile p = l.dropWhile p := by
  induction l with
  | nil => rfl
  | cons a t ih =>
    by_cases h : p a = true
    · simp only [List.dropWhile_cons, h, if_true]
      exact ih
    · simp [List.dropWhile_cons, h]

theorem dropWhile_head_not {α : Type} (p : α → Bool) (l : List α) (c : α)
    (h : (l.dropWhile p).head? = some c) : p c = false := by
  induction l with
  | nil => simp [List.dropWhile] at h
  | cons a t ih =>
    by_cases hp : p a = true
    · rw [List.dropWhile_cons, if_pos hp] at h
      exact ih h
    · rw [List.dropWhile_cons, if_neg hp] at h
      simp only [List.head?_cons, Option.some.injEq] at h
      subst h
      exact Bool.eq_false_iff.mpr hp

theorem dropWhile_exists_append {α : Type} (p : α → Bool) (l : List α) :
    ∃ pre, pre ++ l.dropWhile p = l := by
  induction l with
  | nil => exact ⟨[], rfl⟩
  | cons a t ih =>
    by_cases hp : p a = true
    · obtain ⟨pre, hpre⟩ := ih
      exact ⟨a :: pre, by rw [List.dropWhile_cons, if_pos hp]
                          simpa using hpre⟩
    · exact ⟨[], by rw [List.dropWhile_cons, if_neg hp]; rfl⟩

theorem trimListChar_idem (l : List Char) :
    trimListChar (trimListChar l) = trimListChar l := by
  unfold trimListChar
  have hstep1 :
      (((l.dropWhile jsWhitespace).reverse.dropWhile jsWhitespace).reverse).dropWhile jsWhitespace =
      ((l.dropWhile jsWhitespace).reverse.dropWhile jsWhitespace).reverse := by
    cases hbr :
        ((l.dropWhile jsWhitespace).reverse.dropWhile jsWhitespace).reverse with
    | nil => simp
    | cons c rest =>
      obtain ⟨pre, hpre⟩ :=
        dropWhile_exists_append jsWhitespace (l.dropWhile jsWhitespace).reverse
      have haeq : l.dropWhile jsWhitespace =
          ((l.dropWhile jsWhitespace).reverse.dropWhile jsWhitespace).reverse ++
          pre.reverse := by
        have h2 := congrArg List.reverse hpre
        rw [List.reverse_append, List.reverse_reverse] at h2
        exact h2.symm
      have hheada : (l.dropWhile jsWhitespace).head? = some c := by
        rw [haeq, hbr]
        rfl
      have hc : jsWhitespace c = false := dropWhile_head_not _ l c hheada
      rw [List.dropWhile_cons, if_neg (by simp [hc])]
  rw [hstep1, List.reverse_reverse, dropWhile_dropWhile]

theorem jsTrim_idem (s : String) : jsTrim (jsTrim s) = jsTrim s := by
  show String.mk (trimListChar (String.mk (trimListChar s.data)).data) =
    String.mk (trimListChar s.data)
  exact congrArg String.mk (trimListChar_idem s.data)

theorem jsTrim_ne_empty_of_pos (s : String) (h : 0 < (jsTrim s).length) :
    jsTrim s ≠ "" := by
  intro he
  rw [he] at h
  exact absurd h (by decide)

/- ─── Helper lemmas: the targeted patch never empties a scored field ──── -/

theorem str_append_ne_empty (a b : String) (hb : b ≠ "") : a ++ b ≠ "" := by
  cases a with | mk la =>
  cases b with | mk lb =>
  intro h
  have h2 : la ++ lb = [] := by
    have h3 : (String.mk (la ++ lb)) = ("" : String) := h
    simpa using congrArg String.data h3
  exact hb (by simp [(List.append_eq_nil.mp h2).2])

theorem regenOneLiner_ne_empty (p : CaseProfile) : regenOneLiner p ≠ "" := by
  unfold regenOneLiner
  exact str_append_ne_empty _ _ (by decide)

theorem truthy_some_of_ne (s : String) (h : s ≠ "") :
    truthyOStr (some s) = true := by
  simp [truthyOStr, h]

theorem jsSetDedup_pos (l : List String) (h : 0 < l.length) :
    0 < (jsSetDedup l).length := by
  cases l with
  | nil => simp at h
  | cons x rest => simp [jsSetDedup, jsSetDedup.go]

theorem regenStep_filledImp (p : CaseProfile) : FilledImp p (regenStep p) := by
  unfold regenStep
  by_cases h : regenFires p = true
  · rw [if_pos h]
    apply filledImp_intro <;> intro hx <;>
      first
        | exact hx
        | exact truthy_some_of_ne _ (regenOneLiner_ne_empty p)
  · rw [if_neg h]
    exact filledImp_refl p

theorem modality_pick_ne (text : String) (ht : text ≠ "") :
    (if testModalityCT text = true then "CT"
     else if testModalityMRI text = true then "MRI"
     else if testModalityXray text = true then "CXR"
     else if testModalityPET text = true then "PET"
     else if testModalityUS text = true then "Ultrasound"
     else text) ≠ "" := by
  by_cases c1 : testModalityCT text = true
  · rw [if_pos c1]; decide
  rw [if_neg c1]
  by_cases c2 : testModalityMRI text = true
  · rw [if_pos c2]; decide
  rw [if_neg c2]
  by_cases c3 : testModalityXray text = true
  · rw [if_pos c3]; decide
  rw [if_neg c3]
  by_cases c4 : testModalityPET text = true
  · rw [if_pos c4]; decide
  rw [if_neg c4]
  by_cases c5 : testModalityUS text = true
  · rw [if_pos c5]; decide
  · rw [if_neg c5]; exact ht

theorem patchSwitch_filledImp (key text : String) (p : CaseProfile)
    (ht : text ≠ "") : FilledImp p (patchSwitch key text p) := by
  unfold patchSwitch
  by_cases h1 : key = "patient.age_years"
  · rw [if_pos h1]
    cases hd : firstDigitRun text.data with
    | some ds =>
      apply filledImp_intro <;> intro hx <;> first | exact hx | simp
    | none => exact filledImp_refl p
  rw [if_neg h1]
  by_cases h2 : key = "patient.sex"
  · rw [if_pos h2]
    by_cases hf : testSexFemale text = true
    · rw [if_pos hf]
      apply filledImp_intro <;> intro hx <;>
        first | exact hx | exact truthy_some_of_ne _ (by decide)
    rw [if_neg hf]
    by_cases hm : testSexMale text = true
    · rw [if_pos hm]
      apply filledImp_intro <;> intro hx <;>
        first | exact hx | exact truthy_some_of_ne _ (by decide)
    · rw [if_neg hm]
      exact filledImp_refl p
  rw [if_neg h2]
  by_cases h3 : key = "presentation.chief_complaint"
  · rw [if_pos h3]
    apply filledImp_intro <;> intro hx <;>
      first | exact hx | exact truthy_some_of_ne _ ht
  rw [if_neg h3]
  by_cases h4 : key = "presentation.hpi"
  · rw [if_pos h4]
    apply filledImp_intro <;> intro hx <;>
      first | exact hx | exact truthy_some_of_ne _ ht
  rw [if_neg h4]
  by_cases h5 : key = "presentation.pmh"
  · rw [if_pos h5]
    dsimp only
    by_cases hfo :
        0 < ((pmhComorbMap.filter (fun e => e.1 text)).map (fun e => e.2)).length
    · rw [if_pos hfo]
      apply filledImp_intro <;> intro hx <;>
        first
          | exact hx
          | exact truthy_some_of_ne _ ht
          | exact jsSetDedup_pos _ (by simp; omega)
    · rw [if_neg hfo]
      apply filledImp_intro <;> intro hx <;>
        first | exact hx | exact truthy_some_of_ne _ ht
  rw [if_neg h5]
  by_cases h6 : key = "patient.comorbidities"
  · rw [if_pos h6]
    dsimp only
    by_cases hfo :
        0 < ((comorbidityAnswerMap.filter (fun e => e.1 text)).map (fun e => e.2)).length
    · rw [if_pos hfo]
      apply filledImp_intro <;> intro hx <;>
        first
          | exact hx
          | exact jsSetDedup_pos _ (by simp; omega)
    · rw [if_neg hfo]
      by_cases hlen : 3 < text.length
      · rw [if_pos hlen]
        apply filledImp_intro <;> intro hx <;>
          first | exact hx | simp
      · rw [if_neg hlen]
        exact filledImp_refl p
  rw [if_neg h6]
  by_cases h7 : key = "assessment.diagnosis_primary"
  · rw [if_pos h7]
    dsimp only
    by_cases hin :
        (List.contains p.assessment.suspected_primary text) = true
    · rw [if_pos hin]
      apply filledImp_intro <;> intro hx <;>
        first | exact hx | exact truthy_some_of_ne _ ht
    · rw [if_neg hin]
      apply filledImp_intro <;> intro hx <;>
        first | exact hx | exact truthy_some_of_ne _ ht
  rw [if_neg h7]
  by_cases h8 : key = "assessment.urgency"
  · rw [if_pos h8]
    by_cases hu1 : testUrgencyEmergent text = true
    · rw [if_pos hu1]
      apply filledImp_intro <;> intro hx <;>
        first | exact hx | exact truthy_some_of_ne _ (by decide)
    rw [if_neg hu1]
    by_cases hu2 : testUrgencySemi text = true
    · rw [if_pos hu2]
      apply filledImp_intro <;> intro hx <;>
        first | exact hx | exact truthy_some_of_ne _ (by decide)
    rw [if_neg hu2]
    by_cases hu3 : testUrgencyRoutine text = true
    · rw [if_pos hu3]
      apply filledImp_intro <;> intro hx <;>
        first | exact hx | exact truthy_some_of_ne _ (by decide)
    · rw [if_neg hu3]
      apply filledImp_intro <;> intro hx <;>
        first | exact hx | exact truthy_some_of_ne _ ht
  rw [if_neg h8]
  by_cases h9 : key = "study.modality"
  · rw [if_pos h9]
    dsimp only
    apply filledImp_intro <;> intro hx <;>
      first
        | exact hx
        | exact truthy_some_of_ne _ (modality_pick_ne text ht)
  · rw [if_neg h9]
    exact filledImp_refl p

theorem patch_filledImp (key answer : String) (p : CaseProfile)
    (ht : jsTrim answer ≠ "") :
    FilledImp p (patchProfileFromAnswer key answer p) := by
  unfold patchProfileFromAnswer
  exact filledImp_trans (patchSwitch_filledImp key (jsTrim answer) p ht)
    (regenStep_filledImp _)

/- ─── Helper lemmas: orchestrator paths ───────────────────────────────── -/

theorem processIntakeTurn_eq_pathA (o : TurnOracle) (t : String)
    (fs : List FileMeta) (s : OrchestratorState)
    (h : 0 < fs.length ∨ 30 < (jsTrim t).length) :
    processIntakeTurn o t fs s =
      pathAState o.extraction
        (if (fs.find? (fun f => isImageFile f)).isSome then some o.localUrl
         else none)
        (mkUserMessage o t fs) s := by
  simp only [processIntakeTurn]
  rw [if_pos h]

theorem processIntakeTurn_eq_pathB (o : TurnOracle) (t : String)
    (fs : List FileMeta) (s : OrchestratorState) (q : String)
    (hA : ¬(0 < fs.length ∨ 30 < (jsTrim t).length))
    (hq : s.currentQuestion = some q)
    (hB : 0 < (jsTrim t).length ∧ q ≠ "") :
    processIntakeTurn o t fs s =
      pathBState q (jsTrim t) (mkUserMessage o t fs) s := by
  simp only [processIntakeTurn]
  rw [if_neg hA, hq]
  simp only
  rw [if_pos hB]

theorem processIntakeTurn_eq_pathC_short (o : TurnOracle) (t : String)
    (fs : List FileMeta) (s : OrchestratorState) (q : String)
    (hA : ¬(0 < fs.length ∨ 30 < (jsTrim t).length))
    (hq : s.currentQuestion = some q)
    (hnB : ¬(0 < (jsTrim t).length ∧ q ≠ "")) :
    processIntakeTurn o t fs s = pathCState (mkUserMessage o t fs) s := by
  simp only [processIntakeTurn]
  rw [if_neg hA, hq]
  simp only
  rw [if_neg hnB]

theorem processIntakeTurn_eq_pathC_none (o : TurnOracle) (t : String)
    (fs : List FileMeta) (s : OrchestratorState)
    (hA : ¬(0 < fs.length ∨ 30 < (jsTrim t).length))
    (hq : s.currentQuestion = none) :
    processIntakeTurn o t fs s = pathCState (mkUserMessage o t fs) s := by
  simp only [processIntakeTurn]
  rw [if_neg hA, hq]

theorem pathAState_profile (ext : Except Unit CaseProfile)
    (lu : Option String) (um : OrchestratorMessage)
    (s : OrchestratorState) :
    (pathAState ext lu um s).profile =
      injectLocalImage lu
        (mergeProfiles s.profile
          (match ext with | .ok p => p | .error _ => s.profile)) := rfl

theorem pathAState_phase (ext : Except Unit CaseProfile)
    (lu : Option String) (um : OrchestratorMessage)
    (s : OrchestratorState) :
    (pathAState ext lu um s).phase =
      if READY_THRESHOLD ≤
          (computeProfileConfidence (pathAState ext lu um s).profile).score
      then .ready else .questioning := rfl

theorem pathBState_profile (q tr : String) (um : OrchestratorMessage)
    (s : OrchestratorState) :
    (pathBState q tr um s).profile = patchProfileFromAnswer q tr s.profile :=
  rfl

theorem pathBState_phase (q tr : String) (um : OrchestratorMessage)
    (s : OrchestratorState) :
    (pathBState q tr um s).phase =
      if READY_THRESHOLD ≤
          (computeProfileConfidence (pathBState q tr um s).profile).score
      then .ready else .questioning := rfl

theorem pathCState_profile (um : OrchestratorMessage)
    (s : OrchestratorState) : (pathCState um s).profile = s.profile := rfl

theorem pathCState_phase (um : OrchestratorMessage)
    (s : OrchestratorState) : (pathCState um s).phase = s.phase := rfl

/-- One turn preserves "ready with a score at or above the threshold". -/
theorem turn_preserves_ready (o : TurnOracle) (t : String)
    (fs : List FileMeta) (s : OrchestratorState)
    (hp : s.phase = .ready)
    (hs : READY_THRESHOLD ≤ (computeProfileConfidence s.profile).score) :
    (processIntakeTurn o t fs s).phase = .ready ∧
    READY_THRESHOLD ≤
      (computeProfileConfidence (processIntakeTurn o t fs s).profile).score := by
  by_cases hA : 0 < fs.length ∨ 30 < (jsTrim t).length
  · rw [processIntakeTurn_eq_pathA o t fs s hA]
    have himp : FilledImp s.profile
        (pathAState o.extraction
          (if (fs.find? (fun f => isImageFile f)).isSome then some o.localUrl
           else none) (mkUserMessage o t fs) s).profile := by
      rw [pathAState_profile]
      exact filledImp_trans (merge_filledImp s.profile _)
        (inject_filledImp _ _)
    have hscore := le_trans hs (score_mono himp)
    exact ⟨by rw [pathAState_phase, if_pos hscore], hscore⟩
  · cases hq : s.currentQuestion with
    | none =>
      rw [processIntakeTurn_eq_pathC_none o t fs s hA hq]
      exact ⟨by rw [pathCState_phase, hp], by rw [pathCState_profile]; exact hs⟩
    | some q =>
      by_cases hB : 0 < (jsTrim t).length ∧ q ≠ ""
      · rw [processIntakeTurn_eq_pathB o t fs s q hA hq hB]
        have hne : jsTrim (jsTrim t) ≠ "" := by
          rw [jsTrim_idem]
          exact jsTrim_ne_empty_of_pos _ hB.1
        have himp : FilledImp s.profile
            (pathBState q (jsTrim t) (mkUserMessage o t fs) s).profile := by
          rw [pathBState_profile]
          exact patch_filledImp q (jsTrim t) s.profile hne
        have hscore := le_trans hs (score_mono himp)
        exact ⟨by rw [pathBState_phase, if_pos hscore], hscore⟩
      · rw [processIntakeTurn_eq_pathC_short o t fs s q hA hq hB]
        exact ⟨by rw [pathCState_phase, hp], by rw [pathCState_profile]; exact hs⟩

/-- "Ready with sufficient score" is invariant under any turn sequence. -/
theorem turns_preserve_ready (ts : List TurnInput) (s : OrchestratorState)
    (hp : s.phase = .ready)
    (hs : READY_THRESHOLD ≤ (computeProfileConfidence s.profile).score) :
    (processTurns s ts).phase = .ready ∧
    READY_THRESHOLD ≤
      (computeProfileConfidence (processTurns s ts).profile).score := by
  induction ts generalizing s with
  | nil => exact ⟨hp, hs⟩
  | cons i rest ih =>
    have h1 := turn_preserves_ready i.oracle i.text i.files s hp hs
    exact ih _ h1.1 h1.2

/- ─── Claim C1 ────────────────────────────────────────────────────────── -/

/-- C1: for every pair of profiles `p` and `q`,
`score(mergeProfiles(p, q)) >= score(p)` — merging any incoming snapshot
into a base profile never decreases the completeness score of
`computeProfileConfidence`. -/
theorem C1_merge_score_nonregression (p q : CaseProfile) :
    (computeProfileConfidence p).score ≤
      (computeProfileConfidence (mergeProfiles p q)).score :=
  score_mono (merge_filledImp p q)

/- ─── Claim C2 ────────────────────────────────────────────────────────── -/

/-- A profile whose findings, outcome, provenance and tags sections hold
previously captured values. -/
def spreadSectionsProfile : CaseProfile :=
  { emptyProfile with
    findings :=
      { emptyProfile.findings with
        lungs :=
          { emptyProfile.findings.lungs with
            consolidation_present := some "yes" } },
    outcome := { success := some "yes", detail := some "recovered" },
    provenance :=
      { emptyProfile.provenance with article_title := some "A case report" },
    tags := { emptyProfile.tags with keywords := ["scimitar"] } }

/-- C2 counterexample: `mergeProfiles(p, emptyProfile())` is NOT the
identity — the `...next` spread resets the findings, outcome, provenance
and tags sections to the incoming (empty) values. -/
theorem C2_counterexample :
    mergeProfiles spreadSectionsProfile emptyProfile ≠
      spreadSectionsProfile := by
  decide

theorem pickOStr_empty (a b : Option String) (h : emptyOStr b = true) :
    pickOStr a b = a := if_pos h

theorem pickOInt_empty (a b : Option Int) (h : emptyOInt b = true) :
    pickOInt a b = a := if_pos h

theorem pickList_empty (a b : List String) (h : b.isEmpty = true) :
    pickList a b = a := if_pos h

theorem jsOrStr_of_left_empty (a b : String) (h : a = "") :
    jsOrStr a b = b := by
  rw [h]
  rfl

/-- C2 (amended): for every leaf of the explicitly merged parts — the
three id fields and the patient, presentation, study, assessment and
summary sections — an incoming empty value never erases the base value
(`pick(a, b) = isEmpty(b) ? a : b` leaf by leaf, for ANY incoming
snapshot), so in particular `mergeProfiles(p, emptyProfile())` equals `p`
on those parts; but the `...next` object spread takes the findings,
outcome, provenance and tags sections wholesale from the incoming
snapshot, so merging an empty profile resets those four sections to
empty. -/
theorem C2_merge_empty_amended :
    (∀ p q : CaseProfile,
      (q.profile_id = "" →
        (mergeProfiles p q).profile_id = p.profile_id) ∧
      (q.case_id = "" → (mergeProfiles p q).case_id = p.case_id) ∧
      (q.image_id = "" → (mergeProfiles p q).image_id = p.image_id) ∧
      (emptyOInt q.patient.age_years = true →
        (mergeProfiles p q).patient.age_years = p.patient.age_years) ∧
      (emptyOStr q.patient.sex = true →
        (mergeProfiles p q).patient.sex = p.patient.sex) ∧
      (emptyOStr q.patient.immunocompromised = true →
        (mergeProfiles p q).patient.immunocompromised =
          p.patient.immunocompromised) ∧
      (emptyOInt q.patient.weight_kg = true →
        (mergeProfiles p q).patient.weight_kg = p.patient.weight_kg) ∧
      (q.patient.comorbidities.isEmpty = true →
        (mergeProfiles p q).patient.comorbidities =
          p.patient.comorbidities) ∧
      (q.patient.medications.isEmpty = true →
        (mergeProfiles p q).patient.medications = p.patient.medications) ∧
      (emptyOStr q.patient.allergies = true →
        (mergeProfiles p q).patient.allergies = p.patient.allergies) ∧
      (emptyOStr q.presentation.chief_complaint = true →
        (mergeProfiles p q).presentation.chief_complaint =
          p.presentation.chief_complaint) ∧
      (emptyOStr q.presentation.symptom_duration = true →
        (mergeProfiles p q).presentation.symptom_duration =
          p.presentation.symptom_duration) ∧
      (emptyOStr q.presentation.hpi = true →
        (mergeProfiles p q).presentation.hpi = p.presentation.hpi) ∧
      (emptyOStr q.presentation.pmh = true →
        (mergeProfiles p q).presentation.pmh = p.presentation.pmh) ∧
      (emptyOStr q.study.modality = true →
        (mergeProfiles p q).study.modality = p.study.modality) ∧
      (emptyOStr q.study.body_region = true →
        (mergeProfiles p q).study.body_region = p.study.body_region) ∧
      (emptyOStr q.study.view_position = true →
        (mergeProfiles p q).study.view_position = p.study.view_position) ∧
      (emptyOStr q.study.radiology_region = true →
        (mergeProfiles p q).study.radiology_region =
          p.study.radiology_region) ∧
      (emptyOStr q.study.caption = true →
        (mergeProfiles p q).study.caption = p.study.caption) ∧
      (emptyOStr q.study.image_type = true →
        (mergeProfiles p q).study.image_type = p.study.image_type) ∧
      (emptyOStr q.study.image_subtype = true →
        (mergeProfiles p q).study.image_subtype = p.study.image_subtype) ∧
      (emptyOStr q.study.image_url = true →
        (mergeProfiles p q).study.image_url = p.study.image_url) ∧
      (emptyOStr q.study.storage_path = true →
        (mergeProfiles p q).study.storage_path = p.study.storage_path) ∧
      (emptyOStr q.assessment.diagnosis_primary = true →
        (mergeProfiles p q).assessment.diagnosis_primary =
          p.assessment.diagnosis_primary) ∧
      (q.assessment.suspected_primary.isEmpty = true →
        (mergeProfiles p q).assessment.suspected_primary =
          p.assessment.suspected_primary) ∧
      (q.assessment.differential.isEmpty = true →
        (mergeProfiles p q).assessment.differential =
          p.assessment.differential) ∧
      (emptyOStr q.assessment.urgency = true →
        (mergeProfiles p q).assessment.urgency = p.assessment.urgency) ∧
      (emptyOStr q.assessment.infectious_concern = true →
        (mergeProfiles p q).assessment.infectious_concern =
          p.assessment.infectious_concern) ∧
      (emptyOStr q.assessment.icu_candidate = true →
        (mergeProfiles p q).assessment.icu_candidate =
          p.assessment.icu_candidate) ∧
      (emptyOStr q.summary.one_liner = true →
        (mergeProfiles p q).summary.one_liner = p.summary.one_liner) ∧
      (q.summary.key_points.isEmpty = true →
        (mergeProfiles p q).summary.key_points = p.summary.key_points) ∧
      (q.summary.red_flags.isEmpty = true →
        (mergeProfiles p q).summary.red_flags = p.summary.red_flags)) ∧
    (∀ p : CaseProfile,
      mergeProfiles p emptyProfile =
        { p with
          findings := emptyProfile.findings,
          outcome := emptyProfile.outcome,
          provenance := emptyProfile.provenance,
          tags := emptyProfile.tags }) ∧
    (∀ p q : CaseProfile,
      (mergeProfiles p q).findings = q.findings ∧
      (mergeProfiles p q).outcome = q.outcome ∧
      (mergeProfiles p q).provenance = q.provenance ∧
      (mergeProfiles p q).tags = q.tags) := by
  refine ⟨fun p q => ?_, fun p => rfl, fun p q => ⟨rfl, rfl, rfl, rfl⟩⟩
  refine ⟨?_, ?_, ?_, ?_, ?_, ?_, ?_, ?_, ?_, ?_, ?_, ?_, ?_, ?_, ?_, ?_,
    ?_, ?_, ?_, ?_, ?_, ?_, ?_, ?_, ?_, ?_, ?_, ?_, ?_, ?_, ?_, ?_⟩
  all_goals first
    | exact fun h => jsOrStr_of_left_empty _ _ h
    | exact fun h => pickOInt_empty _ _ h
    | exact fun h => pickOStr_empty _ _ h
    | exact fun h => pickList_empty _ _ h

/-- A profile with all 13 checklist fields filled. -/
def fullChecklistProfile : CaseProfile :=
  { emptyProfile with
    patient := { emptyProfile.patient with
                 age_years := some 52,
                 sex := some "male",
                 comorbidities := ["hypertension"] },
    presentation := { emptyProfile.presentation with
                      chief_complaint := some "hemoptysis",
                      hpi := some "two weeks of hemoptysis",
                      pmh := some "hypertension" },
    study := { emptyProfile.study with
               modality := some "CT",
               body_region := some "thorax",
               image_url := some "blob:local-1" },
    assessment := { emptyProfile.assessment with
                    diagnosis_primary := some "lung malignancy",
                    urgency := some "emergent" },
    summary := { emptyProfile.summary with
                 one_liner := some "52M with hemoptysis",
                 key_points := ["hilar mass"] } }

theorem C2_merge_empty_amended_witness :
    emptyOStr emptyProfile.patient.sex = true ∧
    (mergeProfiles fullChecklistProfile emptyProfile).patient.sex =
      fullChecklistProfile.patient.sex :=
  ⟨by decide,
    ((C2_merge_empty_amended.1 fullChecklistProfile
      emptyProfile).2.2.2.2.1) (by decide)⟩

/- ─── Claim C5 ────────────────────────────────────────────────────────── -/

/-- C5: the scorer evaluates exactly 13 equally weighted boolean
predicates, returns `score = round(100 * filled / 13)` with `total = 13`,
so `0 <= score <= 100`; the empty profile scores 0, a profile with all 13
checklist fields filled scores exactly 100, and `missing` preserves
checklist order (it is a sublist of the ordered label list). -/
theorem C5_computeProfileConfidence_spec (p : CaseProfile) :
    (computeProfileConfidence p).total = 13 ∧
    (computeProfileConfidence p).score =
      roundPercent (computeProfileConfidence p).filled 13 ∧
    (computeProfileConfidence p).score ≤ 100 ∧
    (computeProfileConfidence emptyProfile).score = 0 ∧
    ((computeProfileConfidence p).filled = 13 →
      (computeProfileConfidence p).score = 100) ∧
    List.Sublist (computeProfileConfidence p).missing
      (CONFIDENCE_FIELDS.map (fun f => f.label)) := by
  refine ⟨rfl, rfl, confidence_score_le_100 p, by decide, ?_, ?_⟩
  · intro h
    have hs : (computeProfileConfidence p).score =
        roundPercent (computeProfileConfidence p).filled 13 := rfl
    rw [hs, h]
    decide
  · show List.Sublist
      ((CONFIDENCE_FIELDS.filter
        (fun f => !(f.filled p))).map (fun f => f.label))
      (CONFIDENCE_FIELDS.map (fun f => f.label))
    exact (List.filter_sublist _).map _

theorem C5_computeProfileConfidence_spec_witness :
    (computeProfileConfidence fullChecklistProfile).filled = 13 ∧
    (computeProfileConfidence fullChecklistProfile).score = 100 :=
  ⟨by decide,
    (C5_computeProfileConfidence_spec fullChecklistProfile).2.2.2.2.1
      (by decide)⟩

theorem truthyOStr_some_iff (q : String) :
    truthyOStr (some q) = true ↔ q ≠ "" := by
  simp [truthyOStr]

/-- JS truthiness of the pending question (`currentState.currentQuestion`
in a boolean position): non-null and non-empty. -/
theorem truthyOStr_iff_exists (v : Option String) :
    truthyOStr v = true ↔ ∃ q, v = some q ∧ q ≠ "" := by
  cases v with
  | none => simp [truthyOStr]
  | some q => simp [truthyOStr]

/- ─── Claim C3 ────────────────────────────────────────────────────────── -/

/-- A turn environment whose extraction call rejects and whose object URLs
are empty. -/
def rejectingOracle : TurnOracle :=
  { extraction := Except.error (), mkPreview := fun _ => "", localUrl := "" }

/-- C3 counterexample: a Path C turn (empty text, no files, no pending
question) from the initial state returns phase `greeting`, not
`questioning` or `ready`. -/
theorem C3_counterexample :
    (processIntakeTurn rejectingOracle "" [] createInitialState).phase =
      OrchestratorPhase.greeting ∧
    OrchestratorPhase.greeting ≠ OrchestratorPhase.questioning ∧
    OrchestratorPhase.greeting ≠ OrchestratorPhase.ready := by
  refine ⟨rfl, by decide, by decide⟩

/-- C3 (amended): on Path A (files or text longer than 30) and Path B
(non-empty short text with a truthy — non-null, non-empty — pending
question) the returned phase is exactly `ready` when the returned
profile's completeness score is at least `READY_THRESHOLD` (60) and
`questioning` otherwise; on Path C the phase (and profile) are returned
unchanged, so a turn from the initial `greeting` state can keep phase
`greeting`. -/
theorem C3_phase_amended (o : TurnOracle) (t : String) (fs : List FileMeta)
    (s : OrchestratorState) :
    ((0 < fs.length ∨ 30 < (jsTrim t).length) ∨
      (¬(0 < fs.length ∨ 30 < (jsTrim t).length) ∧
        0 < (jsTrim t).length ∧ truthyOStr s.currentQuestion = true) →
      (processIntakeTurn o t fs s).phase =
        (if READY_THRESHOLD ≤
            (computeProfileConfidence
              (processIntakeTurn o t fs s).profile).score
         then OrchestratorPhase.ready else OrchestratorPhase.questioning)) ∧
    (¬(0 < fs.length ∨ 30 < (jsTrim t).length) ∧
      ¬(0 < (jsTrim t).length ∧ truthyOStr s.currentQuestion = true) →
      (processIntakeTurn o t fs s).phase = s.phase ∧
      (processIntakeTurn o t fs s).profile = s.profile) := by
  constructor
  · rintro (hA | ⟨hnA, hlen, hq⟩)
    · rw [processIntakeTurn_eq_pathA o t fs s hA]
      exact pathAState_phase _ _ _ _
    · obtain ⟨q, hq', hqne⟩ := (truthyOStr_iff_exists _).mp hq
      rw [processIntakeTurn_eq_pathB o t fs s q hnA hq' ⟨hlen, hqne⟩]
      exact pathBState_phase _ _ _ _
  · rintro ⟨hnA, hBC⟩
    cases hq : s.currentQuestion with
    | none =>
      rw [processIntakeTurn_eq_pathC_none o t fs s hnA hq]
      exact ⟨rfl, rfl⟩
    | some q =>
      have hnB : ¬(0 < (jsTrim t).length ∧ q ≠ "") := by
        rintro ⟨hl, hqne⟩
        exact hBC ⟨hl, by rw [hq]; exact (truthyOStr_some_iff q).mpr hqne⟩
      rw [processIntakeTurn_eq_pathC_short o t fs s q hnA hq hnB]
      exact ⟨rfl, rfl⟩

/-- The initial state with a pending urgency question, for exercising
Path B. -/
def pendingUrgencyState : OrchestratorState :=
  { createInitialState with currentQuestion := some "assessment.urgency" }

theorem C3_phase_amended_witness :
    ((0 < ([] : List FileMeta).length ∨ 30 < (jsTrim "emergent").length) ∨
      (¬(0 < ([] : List FileMeta).length ∨ 30 < (jsTrim "emergent").length) ∧
        0 < (jsTrim "emergent").length ∧
        truthyOStr pendingUrgencyState.currentQuestion = true)) ∧
    (processIntakeTurn rejectingOracle "emergent" [] pendingUrgencyState).phase =
      (if READY_THRESHOLD ≤
          (computeProfileConfidence
            (processIntakeTurn rejectingOracle "emergent" []
              pendingUrgencyState).profile).score
       then OrchestratorPhase.ready else OrchestratorPhase.questioning) :=
  ⟨by decide,
    (C3_phase_amended rejectingOracle "emergent" [] pendingUrgencyState).1
      (by decide)⟩

/- ─── Claim C4 ────────────────────────────────────────────────────────── -/

/-- C4: once a state has phase `ready` (with its completeness score at or
above `READY_THRESHOLD`, as every orchestrator-produced ready state has),
no sequence of further `processIntakeTurn` calls can return phase
`questioning`: Path A merges (score non-regression), Path B patches only
write non-empty values, and Path C leaves the profile and phase unchanged,
so the score never drops below the threshold and the phase stays
`ready`. -/
theorem C4_ready_absorbing (s : OrchestratorState) (ts : List TurnInput)
    (hp : s.phase = OrchestratorPhase.ready)
    (hs : READY_THRESHOLD ≤ (computeProfileConfidence s.profile).score) :
    (processTurns s ts).phase = OrchestratorPhase.ready ∧
    (processTurns s ts).phase ≠ OrchestratorPhase.questioning := by
  have h := turns_preserve_ready ts s hp hs
  exact ⟨h.1, by rw [h.1]; decide⟩

/-- A ready state whose profile fills every checklist field. -/
def readyFullState : OrchestratorState :=
  { profile := fullChecklistProfile, phase := .ready, messages := [],
    currentQuestion := none, readyToProceed := true }

theorem C4_ready_absorbing_witness :
    (readyFullState.phase = OrchestratorPhase.ready ∧
      READY_THRESHOLD ≤
        (computeProfileConfidence readyFullState.profile).score) ∧
    (processTurns readyFullState
      [{ oracle := rejectingOracle, text := "emergent", files := [] }]).phase =
      OrchestratorPhase.ready :=
  ⟨⟨rfl, by decide⟩,
    (C4_ready_absorbing readyFullState
      [{ oracle := rejectingOracle, text := "emergent", files := [] }]
      rfl (by decide)).1⟩

/- ─── Claim C6 ────────────────────────────────────────────────────────── -/

theorem gen_priority_fields (p : CaseProfile) (c : Nat) :
    (generateAgenticFollowup p c).priority_fields =
      (missingPriorityFields p).map (fun m => m.key) := by
  unfold generateAgenticFollowup
  repeat (first | rfl | split)

theorem checklist_keys_inj :
    ∀ i ∈ PRIORITY_CHECKLIST, ∀ j ∈ PRIORITY_CHECKLIST,
      i.key = j.key → i = j := by
  decide

theorem pathAState_currentQuestion (ext : Except Unit CaseProfile)
    (lu : Option String) (um : OrchestratorMessage)
    (s : OrchestratorState) :
    (pathAState ext lu um s).currentQuestion =
      ((generateAgenticFollowup (pathAState ext lu um s).profile
        (computeProfileConfidence
          (pathAState ext lu um s).profile).score).priority_fields).head? :=
  rfl

theorem pathBState_currentQuestion (q tr : String)
    (um : OrchestratorMessage) (s : OrchestratorState) :
    (pathBState q tr um s).currentQuestion =
      ((generateAgenticFollowup (pathBState q tr um s).profile
        (computeProfileConfidence
          (pathBState q tr um s).profile).score).priority_fields).head? :=
  rfl

/-- C6: `generateAgenticFollowup` is tiered by score exactly as specified —
score 0 yields a fixed onboarding message, 1–34 surfaces the first missing
priority question, 35–59 frames it as "taking shape", 60–84 as one more
detail ("polishing" tier), and 85+ declares the profile comprehensive with
no question; `priority_fields` is the ordered list of still-missing
priority checklist keys (a sublist of the checklist key order containing
exactly the keys whose field is empty), and on Paths A and B the
orchestrator installs its head as the next `currentQuestion`. -/
theorem C6_followup_tiers :
    (∀ (p : CaseProfile) (c : Nat),
      List.Sublist (generateAgenticFollowup p c).priority_fields
        (PRIORITY_CHECKLIST.map (fun i => i.key)) ∧
      (∀ i ∈ PRIORITY_CHECKLIST,
        (i.key ∈ (generateAgenticFollowup p c).priority_fields ↔
          leafIsEmpty (getProfileLeaf p i.key) = true)) ∧
      (c = 0 → (generateAgenticFollowup p c).message =
        "I've set up your case profile. Share imaging impressions, paste a referral note, or upload a file and I'll begin populating the structured fields.") ∧
      (1 ≤ c → c < 35 → (generateAgenticFollowup p c).message =
        "I've started building the profile. To move forward: " ++
          (match (missingPriorityFields p).head? with
            | some f => f.question
            | none => "Can you share more clinical detail?")) ∧
      (35 ≤ c → c < 60 → (generateAgenticFollowup p c).message =
        (match (missingPriorityFields p).head? with
          | some f => "Profile is taking shape. Next: " ++ f.question
          | none => "Looking good — a bit more detail would help strengthen the assessment.")) ∧
      (60 ≤ c → c < 85 → (generateAgenticFollowup p c).message =
        (match (missingPriorityFields p).head? with
          | some f => "Profile is strong. One more detail: " ++ f.question
          | none => "The profile is very comprehensive. Ready to proceed when you are.")) ∧
      (85 ≤ c → (generateAgenticFollowup p c).message =
        "This case profile is detailed and complete. I've captured all critical fields — you can proceed to finding case matches.")) ∧
    (∀ (o : TurnOracle) (t : String) (fs : List FileMeta)
        (s : OrchestratorState),
      (0 < fs.length ∨ 30 < (jsTrim t).length) ∨
        (¬(0 < fs.length ∨ 30 < (jsTrim t).length) ∧
          0 < (jsTrim t).length ∧ truthyOStr s.currentQuestion = true) →
      (processIntakeTurn o t fs s).currentQuestion =
        ((generateAgenticFollowup (processIntakeTurn o t fs s).profile
          (computeProfileConfidence
            (processIntakeTurn o t fs s).profile).score).priority_fields).head?) := by
  constructor
  · intro p c
    refine ⟨?_, ?_, ?_, ?_, ?_, ?_, ?_⟩
    · rw [gen_priority_fields]
      exact (List.filter_sublist _).map _
    · intro i hi
      rw [gen_priority_fields]
      constructor
      · intro hk
        obtain ⟨j, hj, hkey⟩ := List.mem_map.mp hk
        obtain ⟨hj1, hj2⟩ := List.mem_filter.mp hj
        have := checklist_keys_inj j hj1 i hi hkey
        rw [← this]
        exact hj2
      · intro hempty
        exact List.mem_map.mpr
          ⟨i, List.mem_filter.mpr ⟨hi, hempty⟩, rfl⟩
    · intro hc
      unfold generateAgenticFollowup
      rw [if_pos hc]
    · intro hc1 hc2
      unfold generateAgenticFollowup
      rw [if_neg (by omega), if_pos hc2]
    · intro hc1 hc2
      unfold generateAgenticFollowup
      rw [if_neg (by omega), if_neg (by omega), if_pos hc2]
    · intro hc1 hc2
      unfold generateAgenticFollowup
      rw [if_neg (by omega), if_neg (by omega), if_neg (by omega),
        if_pos hc2]
    · intro hc
      unfold generateAgenticFollowup
      rw [if_neg (by omega), if_neg (by omega), if_neg (by omega),
        if_neg (by omega)]
  · intro o t fs s h
    rcases h with hA | ⟨hnA, hlen, hq⟩
    · rw [processIntakeTurn_eq_pathA o t fs s hA]
      exact pathAState_currentQuestion _ _ _ _
    · obtain ⟨q, hq', hqne⟩ := (truthyOStr_iff_exists _).mp hq
      rw [processIntakeTurn_eq_pathB o t fs s q hnA hq' ⟨hlen, hqne⟩]
      exact pathBState_currentQuestion _ _ _ _

theorem C6_followup_tiers_witness :
    ((35 : Nat) ≤ 40 ∧ (40 : Nat) < 60) ∧
    (generateAgenticFollowup emptyProfile 40).message =
      (match (missingPriorityFields emptyProfile).head? with
        | some f => "Profile is taking shape. Next: " ++ f.question
        | none => "Looking good — a bit more detail would help strengthen the assessment.") :=
  ⟨⟨by decide, by decide⟩,
    ((C6_followup_tiers.1 emptyProfile 40).2.2.2.2.1 (by decide) (by decide))⟩

/- ─── Claim C7 ────────────────────────────────────────────────────────── -/

/-- A profile on which the one-liner regeneration of
`patchProfileFromAnswer` fires (age, sex and primary diagnosis all
truthy). -/
def regenFiringProfile : CaseProfile :=
  { emptyProfile with
    patient := { emptyProfile.patient with
                 age_years := some 52,
                 sex := some "male" },
    assessment := { emptyProfile.assessment with
                    diagnosis_primary := some "pneumonia" },
    summary := { emptyProfile.summary with
                 one_liner := some "an earlier one-liner" } }

/-- C7 counterexample: answering "emergent" to the urgency question sets
`assessment.urgency` but ALSO rewrites `summary.one_liner` (the patch
regenerates the one-liner whenever age, sex and primary diagnosis are all
present), so a section other than assessment changes and the diff labels
are not exactly `["Urgency"]`. -/
theorem C7_counterexample :
    (patchProfileFromAnswer "assessment.urgency" "emergent"
      regenFiringProfile).assessment.urgency = some "emergent" ∧
    (patchProfileFromAnswer "assessment.urgency" "emergent"
      regenFiringProfile).summary ≠ regenFiringProfile.summary ∧
    diffProfileFields regenFiringProfile
      (patchProfileFromAnswer "assessment.urgency" "emergent"
        regenFiringProfile) ≠ ["Urgency"] ∧
    diffProfileFields regenFiringProfile
      (patchProfileFromAnswer "assessment.urgency" "emergent"
        regenFiringProfile) = ["Urgency", "Summary"] := by
  decide

theorem diffCheckOStr_refl (label : String) (a : Option String) :
    diffCheckOStr label a a = [] := by
  unfold diffCheckOStr
  cases h : emptyOStr a <;> simp [h]

theorem diffCheckOInt_refl (label : String) (a : Option Int) :
    diffCheckOInt label a a = [] := by
  unfold diffCheckOInt
  cases h : emptyOInt a <;> simp [h]

theorem diffCheckList_refl (label : String) (a : List String) :
    diffCheckList label a a = [] := by
  unfold diffCheckList
  cases h : a.isEmpty <;> simp [h]

theorem diffCheckOStr_target (label : String) (a : Option String)
    (b : String) (hb : b ≠ "") (hne : a ≠ some b) :
    diffCheckOStr label a (some b) = [label] := by
  unfold diffCheckOStr
  cases h : emptyOStr a
  · simp [h, emptyOStr, hb, hne]
  · simp [h, emptyOStr, hb]

/-- The result of the urgency switch case on an "emergent" answer. -/
def urgencyPatched (p : CaseProfile) : CaseProfile :=
  { p with assessment := { p.assessment with urgency := some "emergent" } }

theorem patchSwitch_urgency_emergent (p : CaseProfile) :
    patchSwitch "assessment.urgency" (jsTrim "emergent") p =
      urgencyPatched p := by
  rw [show jsTrim "emergent" = "emergent" from rfl]
  unfold patchSwitch urgencyPatched
  rw [if_neg (by decide), if_neg (by decide), if_neg (by decide),
    if_neg (by decide), if_neg (by decide), if_neg (by decide),
    if_neg (by decide),
    if_pos (show ("assessment.urgency" : String) = "assessment.urgency"
      from rfl),
    if_pos (by decide)]

/-- C7 (amended): an "emergent" answer to the pending urgency question
sets `assessment.urgency = "emergent"` and leaves every section except
assessment and summary untouched (within assessment only the urgency
field changes); the summary is untouched — and the diff labels are exactly
`["Urgency"]` — precisely when the one-liner regeneration does not fire,
i.e. when not all of age, sex and primary diagnosis are truthy; in general
the patch may additionally rewrite `summary.one_liner` (and a pmh answer
additionally unions comorbidity keywords into the patient section). -/
theorem C7_urgency_patch_amended (p : CaseProfile) :
    (patchProfileFromAnswer "assessment.urgency" "emergent" p).assessment =
      { p.assessment with urgency := some "emergent" } ∧
    (patchProfileFromAnswer "assessment.urgency" "emergent" p).patient =
      p.patient ∧
    (patchProfileFromAnswer "assessment.urgency" "emergent" p).presentation =
      p.presentation ∧
    (patchProfileFromAnswer "assessment.urgency" "emergent" p).study =
      p.study ∧
    (patchProfileFromAnswer "assessment.urgency" "emergent" p).findings =
      p.findings ∧
    (patchProfileFromAnswer "assessment.urgency" "emergent" p).outcome =
      p.outcome ∧
    (patchProfileFromAnswer "assessment.urgency" "emergent" p).provenance =
      p.provenance ∧
    (patchProfileFromAnswer "assessment.urgency" "emergent" p).tags =
      p.tags ∧
    (regenFires p = false →
      (patchProfileFromAnswer "assessment.urgency" "emergent" p).summary =
        p.summary) ∧
    (regenFires p = false → p.assessment.urgency ≠ some "emergent" →
      diffProfileFields p
        (patchProfileFromAnswer "assessment.urgency" "emergent" p) =
        ["Urgency"]) := by
  have hr : patchProfileFromAnswer "assessment.urgency" "emergent" p =
      regenStep (urgencyPatched p) := by
    show regenStep
      (patchSwitch "assessment.urgency" (jsTrim "emergent") p) = _
    rw [patchSwitch_urgency_emergent]
  have hfire : regenFires (urgencyPatched p) = regenFires p := rfl
  by_cases hrf : regenFires p = true
  · have hre : patchProfileFromAnswer "assessment.urgency" "emergent" p =
        { urgencyPatched p with summary :=
          { (urgencyPatched p).summary with
            one_liner := some (regenOneLiner (urgencyPatched p)) } } := by
      rw [hr]
      unfold regenStep
      rw [hfire, if_pos hrf]
    refine ⟨?_, ?_, ?_, ?_, ?_, ?_, ?_, ?_, ?_, ?_⟩
    · rw [hre]; rfl
    · rw [hre]; rfl
    · rw [hre]; rfl
    · rw [hre]; rfl
    · rw [hre]; rfl
    · rw [hre]; rfl
    · rw [hre]; rfl
    · rw [hre]; rfl
    · intro h1; rw [h1] at hrf; simp at hrf
    · intro h1; rw [h1] at hrf; simp at hrf
  · have hre : patchProfileFromAnswer "assessment.urgency" "emergent" p =
        urgencyPatched p := by
      rw [hr]
      unfold regenStep
      rw [hfire, if_neg hrf]
    refine ⟨?_, ?_, ?_, ?_, ?_, ?_, ?_, ?_, fun _ => ?_, fun _ hne => ?_⟩ <;>
      rw [hre]
    · rfl
    · rfl
    · rfl
    · rfl
    · rfl
    · rfl
    · rfl
    · rfl
    · rfl
    · unfold diffProfileFields urgencyPatched
      simp only [diffCheckOStr_refl, diffCheckOInt_refl, diffCheckList_refl,
        diffCheckOStr_target "Urgency" p.assessment.urgency "emergent"
          (by decide) hne,
        List.nil_append, List.append_nil]

theorem C7_urgency_patch_amended_witness :
    (regenFires emptyProfile = false ∧
      emptyProfile.assessment.urgency ≠ some "emergent") ∧
    diffProfileFields emptyProfile
      (patchProfileFromAnswer "assessment.urgency" "emergent" emptyProfile) =
      ["Urgency"] :=
  ⟨⟨by decide, by decide⟩,
    (C7_urgency_patch_amended emptyProfile).2.2.2.2.2.2.2.2.2
      (by decide) (by decide)⟩

/- ─── Claim C8 ────────────────────────────────────────────────────────── -/

/-- C8: if the extraction capability call in Path A rejects, the
orchestrator uses the prior profile as the extraction result for that
turn: the returned state is identical to the one produced by a successful
extraction that returned the prior profile, and the resulting profile is
the prior profile (possibly with only the local image URL injected).  The
embedding is a total function — the rejected promise is consumed by the
`try/catch`, so no exception reaches the caller. -/
theorem C8_extraction_failsoft (pv : FileMeta → String) (u t : String)
    (fs : List FileMeta) (s : OrchestratorState)
    (hA : 0 < fs.length ∨ 30 < (jsTrim t).length) :
    processIntakeTurn
        { extraction := Except.error (), mkPreview := pv, localUrl := u }
        t fs s =
      processIntakeTurn
        { extraction := Except.ok s.profile, mkPreview := pv, localUrl := u }
        t fs s ∧
    ((processIntakeTurn
        { extraction := Except.error (), mkPreview := pv, localUrl := u }
        t fs s).profile = s.profile ∨
      (processIntakeTurn
        { extraction := Except.error (), mkPreview := pv, localUrl := u }
        t fs s).profile =
        { s.profile with study :=
          { s.profile.study with image_url := some u } }) := by
  constructor
  · rfl
  · have hprof : (processIntakeTurn
        { extraction := Except.error (), mkPreview := pv, localUrl := u }
        t fs s).profile =
        injectLocalImage
          (if (fs.find? (fun f => isImageFile f)).isSome then some u
           else none) s.profile := by
      rw [processIntakeTurn_eq_pathA _ t fs s hA, pathAState_profile]
      show injectLocalImage _ (mergeProfiles s.profile s.profile) = _
      rw [mergeProfiles_self]
    by_cases hfi : (fs.find? (fun f => isImageFile f)).isSome = true
    · rw [hprof, if_pos hfi]
      unfold injectLocalImage
      dsimp only
      by_cases hc : (!(u == "") && emptyOStr s.profile.study.image_url) = true
      · rw [if_pos hc]
        right
        rfl
      · rw [if_neg hc]
        left
        rfl
    · rw [hprof, if_neg hfi]
      left
      rfl

/-- An image upload with no accompanying text. -/
def pngUpload : FileMeta := { name := "cxr.png", type := "image/png" }

theorem C8_extraction_failsoft_witness :
    (0 < [pngUpload].length ∨ 30 < (jsTrim "").length) ∧
    processIntakeTurn
        { extraction := Except.error (), mkPreview := fun _ => "blob:p",
          localUrl := "blob:1" } "" [pngUpload] createInitialState =
      processIntakeTurn
        { extraction := Except.ok createInitialState.profile,
          mkPreview := fun _ => "blob:p", localUrl := "blob:1" }
        "" [pngUpload] createInitialState :=
  ⟨Or.inl (by decide),
    (C8_extraction_failsoft (fun _ => "blob:p") "blob:1" "" [pngUpload]
      createInitialState (Or.inl (by decide))).1⟩

/- ─── Claim C9 ────────────────────────────────────────────────────────── -/

/-- C9: on every path (A, B and C), `processIntakeTurn` returns a message
log equal to the input log followed by one or more newly appended entries;
no existing entry is removed, reordered or edited in place. -/
theorem C9_messages_append_only (o : TurnOracle) (t : String)
    (fs : List FileMeta) (s : OrchestratorState) :
    ∃ tail : List OrchestratorMessage, tail ≠ [] ∧
      (processIntakeTurn o t fs s).messages = s.messages ++ tail := by
  by_cases hA : 0 < fs.length ∨ 30 < (jsTrim t).length
  · rw [processIntakeTurn_eq_pathA o t fs s hA]
    refine ⟨_, ?_, rfl⟩
    simp
  · cases hq : s.currentQuestion with
    | none =>
      rw [processIntakeTurn_eq_pathC_none o t fs s hA hq]
      refine ⟨_, ?_, rfl⟩
      simp
    | some q =>
      by_cases hB : 0 < (jsTrim t).length ∧ q ≠ ""
      · rw [processIntakeTurn_eq_pathB o t fs s q hA hq hB]
        refine ⟨_, ?_, rfl⟩
        simp
      · rw [processIntakeTurn_eq_pathC_short o t fs s q hA hq hB]
        refine ⟨_, ?_, rfl⟩
        simp

/- ─── Claim C10 ───────────────────────────────────────────────────────── -/

theorem pathAState_ready (ext : Except Unit CaseProfile)
    (lu : Option String) (um : OrchestratorMessage)
    (s : OrchestratorState) :
    (pathAState ext lu um s).readyToProceed =
      decide (READY_THRESHOLD ≤
        (computeProfileConfidence (pathAState ext lu um s).profile).score) :=
  rfl

theorem pathBState_ready (q tr : String) (um : OrchestratorMessage)
    (s : OrchestratorState) :
    (pathBState q tr um s).readyToProceed =
      decide (READY_THRESHOLD ≤
        (computeProfileConfidence (pathBState q tr um s).profile).score) :=
  rfl

theorem pathCState_ready (um : OrchestratorMessage)
    (s : OrchestratorState) :
    (pathCState um s).readyToProceed = s.readyToProceed := rfl

theorem ready_flag_phase_helper (sc : Nat) :
    (decide (READY_THRESHOLD ≤ sc) = true ↔
      (if READY_THRESHOLD ≤ sc then OrchestratorPhase.ready
       else OrchestratorPhase.questioning) = OrchestratorPhase.ready) := by
  by_cases h : READY_THRESHOLD ≤ sc <;> simp [h]

/-- C10: in every state reachable from `createInitialState` through
`processIntakeTurn`, `readyToProceed` is true exactly when the phase is
`ready`; the initial state has phase `greeting` with `readyToProceed`
false, and every path either sets both fields from the same
score-threshold test (Paths A, B) or leaves both unchanged (Path C). -/
theorem C10_ready_flag_iff_phase :
    (createInitialState.phase = OrchestratorPhase.greeting ∧
      createInitialState.readyToProceed = false) ∧
    ∀ s : OrchestratorState, Reachable s →
      (s.readyToProceed = true ↔ s.phase = OrchestratorPhase.ready) := by
  refine ⟨⟨rfl, rfl⟩, ?_⟩
  intro s hs
  induction hs with
  | init => decide
  | step o t fs hr ih =>
    rename_i s'
    by_cases hA : 0 < fs.length ∨ 30 < (jsTrim t).length
    · rw [processIntakeTurn_eq_pathA o t fs s' hA, pathAState_ready,
        pathAState_phase]
      exact ready_flag_phase_helper _
    · cases hq : s'.currentQuestion with
      | none =>
        rw [processIntakeTurn_eq_pathC_none o t fs s' hA hq,
          pathCState_ready, pathCState_phase]
        exact ih
      | some q =>
        by_cases hB : 0 < (jsTrim t).length ∧ q ≠ ""
        · rw [processIntakeTurn_eq_pathB o t fs s' q hA hq hB,
            pathBState_ready, pathBState_phase]
          exact ready_flag_phase_helper _
        · rw [processIntakeTurn_eq_pathC_short o t fs s' q hA hq hB,
            pathCState_ready, pathCState_phase]
          exact ih

theorem C10_ready_flag_iff_phase_witness :
    Reachable createInitialState ∧
    (createInitialState.readyToProceed = true ↔
      createInitialState.phase = OrchestratorPhase.ready) :=
  ⟨Reachable.init,
    C10_ready_flag_iff_phase.2 createInitialState Reachable.init⟩
